import Mathlib

/-! linkme: a verification development

A shallow embedding of the Go packages `internal/config`, `internal/theme`,
`internal/generator` and of the watcher loop of `cmd/linkme`, followed by the
properties proved about them.

Conventions of the embedding

* Go `string` values are Lean `String`s, Go `int` is `Int`, slices are `List`s
  (a nil slice and an empty slice are both `[]`).
* A Go `float64` is represented by its IEEE-754 binary64 bit pattern (a `Nat`
  below `2^64`); the program only compares it with zero and stores `1.0`.
* `fmt.Sprintf` is embedded as an interpreter of the verbs the program uses.
* A Go `error` is represented by its message.
* Library functions whose code is not part of the program (Unicode case
  mapping, HTML escaping, path joining, the YAML and JSON decoders) are the
  fields of a record `Lib`; the operating system and the template engine are
  the fields of a record `OS` over a type of filesystem states.
-/

/-- A Go `error` value, represented by the text of `err.Error()`. -/
abbrev Error := String

deriving instance DecidableEq for Except

/-! ## fmt -/

namespace fmt

/-- An operand of `Sprintf` or `Errorf`: the program passes strings (`%s`),
ints (`%d`) and errors (`%w`, `%v`). -/
inductive Arg where
  | str (s : String)
  | int (i : Int)
  | err (e : Error)
deriving Repr, DecidableEq

/-- Decimal rendering of a Go `int` under the verb `%d`. -/
def formatInt (i : Int) : String :=
  if i < 0 then "-" ++ toString i.natAbs else toString i.toNat

/-- Expansion of a format, as characters. A verb `%s` consumes a string
operand and copies it verbatim, a verb `%d` consumes an int operand and renders
it in decimal, a verb `%w` or `%v` consumes an error operand and copies its
message, `%%` is a literal percent sign, every other character is copied. (The
program never passes a mismatched or missing operand, a case in which the
directive is copied unexpanded here.) -/
def expand : List Char → List Arg → List Char
  | [], _ => []
  | '%' :: 's' :: rest, Arg.str s :: args => s.data ++ expand rest args
  | '%' :: 'd' :: rest, Arg.int i :: args => (formatInt i).data ++ expand rest args
  | '%' :: 'w' :: rest, Arg.err e :: args => e.data ++ expand rest args
  | '%' :: 'v' :: rest, Arg.err e :: args => e.data ++ expand rest args
  | '%' :: '%' :: rest, args => '%' :: expand rest args
  | c :: rest, args => c :: expand rest args

/-- Embedding of `fmt.Sprintf(format, args...)`. -/
def Sprintf (format : String) (args : List Arg) : String :=
  String.mk (expand format.data args)

/-- Embedding of `fmt.Errorf(format, args...)`: the error whose message is the
expanded format. -/
def Errorf (format : String) (args : List Arg) : Error :=
  Sprintf format args

end fmt

/-! ## package config -/

/-- A Go `float64`, as its IEEE-754 binary64 bit pattern. -/
abbrev Float64 := Nat

namespace Float64

/-- The constant `1.0`: sign 0, biased exponent 1023, mantissa 0. -/
def one : Float64 := 0x3FF0000000000000

/-- The Go comparison `x == 0`: true exactly for `+0` and `-0` (every bit but
the sign bit is clear); false for every other value, NaN included. -/
def isZero (x : Float64) : Bool := x % 2 ^ 63 == 0

end Float64

namespace config

/-- Go `config.Background`. -/
structure Background where
  Type_ : String
  Value : String
  Blur : Int
  Opacity : Float64
deriving Repr, DecidableEq

/-- Go `config.Link`. -/
structure Link where
  Title : String
  URL : String
  Icon : String
  IconURL : String
  Color : String
deriving Repr, DecidableEq

/-- Go `config.Section`. -/
structure Section where
  Title : String
  Links : List Link
deriving Repr, DecidableEq

/-- Go `config.Social`. -/
structure Social where
  Icon : String
  URL : String
  Color : String
deriving Repr, DecidableEq

/-- Go `config.Config`. -/
structure Config where
  ConfigVersion : String
  Name : String
  Subtitle : String
  Description : String
  Avatar : String
  Theme : String
  Background : Background
  Links : List Link
  Sections : List Section
  Socials : List Social
deriving Repr, DecidableEq

end config

/-! ## package theme: data -/

namespace theme

/-- Go `theme.ThemeFeatures`. -/
structure ThemeFeatures where
  Particles : Bool
  Animations : Bool
deriving Repr, DecidableEq

/-- Go `theme.ThemeManifest`. The field `DefaultColorScheme` is read by
`prepareTemplateData` (`g.theme.DefaultColorScheme`); no function of package
`theme` reads or writes it. -/
structure ThemeManifest where
  Name : String
  Version : String
  Author : String
  Description : String
  License : String
  Features : ThemeFeatures
  Styles : List String
  Scripts : List String
  DefaultColorScheme : String
deriving Repr, DecidableEq

end theme

/-! ## package generator: data -/

namespace generator

/-- Go `generator.IconData`, an entry of the bundled icon dataset. -/
structure IconData where
  Title : String
  Slug : String
  Hex : String
  Path : String
deriving Repr, DecidableEq

/-- Go `generator.LinkData`. -/
structure LinkData where
  Title : String
  URL : String
  IconSVG : String
  IconURL : String
  Color : String
deriving Repr, DecidableEq

/-- Go `generator.SectionData`. -/
structure SectionData where
  Title : String
  Links : List LinkData
deriving Repr, DecidableEq

/-- Go `generator.SocialData`. -/
structure SocialData where
  URL : String
  IconSVG : String
  Color : String
deriving Repr, DecidableEq

/-- Go `generator.TemplateData` (`template.CSS` and `template.HTML` are string
types). -/
structure TemplateData where
  Config : config.Config
  Theme : theme.ThemeManifest
  Links : List LinkData
  Sections : List SectionData
  Socials : List SocialData
  BackgroundCSS : String
  DescriptionHTML : String
  DefaultTheme : String
  ThemeStyles : List String
  ThemeScripts : List String
deriving Repr, DecidableEq

/-- Go `generator.Generator`. -/
structure Generator where
  cfg : config.Config
  themePath : String
  outputDir : String
  theme : theme.ThemeManifest
deriving Repr, DecidableEq

end generator

/-! ## The library and the operating system -/

/-- Library functions the program calls and whose code is outside of it. -/
structure Lib where
  /-- The rune mapping `unicode.ToLower`. -/
  unicodeToLower : Char → Char
  /-- The function `template.HTMLEscapeString`. -/
  HTMLEscapeString : String → String
  /-- The function `filepath.Join`, applied to the list of its arguments. -/
  Join : List String → String
  /-- The function `filepath.Base`. -/
  Base : String → String
  /-- The decoder `yaml.Unmarshal` into a zero `config.Config`. -/
  UnmarshalConfig : String → Except Error config.Config
  /-- The decoder `yaml.Unmarshal` into a zero `theme.ThemeManifest`. -/
  UnmarshalManifest : String → Except Error theme.ThemeManifest
  /-- The decoder `json.Unmarshal` into a nil `[]IconData`. -/
  UnmarshalIcons : String → Except Error (List generator.IconData)

/-- Outcome of `os.Stat` as far as the program looks at it: a nil error, an
error for which `os.IsNotExist` holds, or another error. -/
inductive StatResult where
  | ok
  | notExist
  | failed
deriving Repr, DecidableEq

/-- An `os.DirEntry`, as far as the program looks at it. -/
structure DirEntry where
  Name : String
  IsDir : Bool
deriving Repr, DecidableEq

/-- A parsed `*template.Template`, given by what `Execute` does with it: the
bytes written to the buffer, and the error returned (if any). -/
structure Template where
  Execute : generator.TemplateData → String × Option Error

/-- The operating system and the template engine, over filesystem states `σ`.
An operation that may change the filesystem returns the new state and the
error (if any). -/
structure OS (σ : Type) where
  Stat : String → σ → StatResult
  ReadFile : String → σ → Except Error String
  ReadDir : String → σ → Except Error (List DirEntry)
  MkdirAll : String → σ → σ × Option Error
  WriteFile : String → String → σ → σ × Option Error
  /-- The function `template.ParseFiles` on one path. -/
  ParseFiles : String → σ → Except Error Template

/-! ## strings -/

namespace strings

/-- The function `strings.ToLower`: every rune is mapped by `unicode.ToLower`. -/
def ToLower (lib : Lib) (s : String) : String :=
  String.mk (s.data.map lib.unicodeToLower)

/-- Left-to-right replacement of the non-overlapping occurrences of a non-empty
`old`; the counter is the number of characters of a matched occurrence that
are still to be skipped. -/
def replaceFrom (old new : List Char) : Nat → List Char → List Char
  | _, [] => []
  | skip + 1, _ :: cs => replaceFrom old new skip cs
  | 0, c :: cs =>
    if old.isPrefixOf (c :: cs) then new ++ replaceFrom old new (old.length - 1) cs
    else c :: replaceFrom old new 0 cs

/-- The function `strings.ReplaceAll`. With an empty `old`, the replacement is
inserted before every rune and at the end. -/
def ReplaceAll (s old new : String) : String :=
  if old.data = [] then String.mk (new.data ++ s.data.flatMap fun c => c :: new.data)
  else String.mk (replaceFrom old.data new.data 0 s.data)

/-- The function `strings.HasPrefix`. -/
def HasPrefix (s pre : String) : Bool :=
  pre.data.isPrefixOf s.data

/-- The function `strings.HasSuffix`. -/
def HasSuffix (s suffix : String) : Bool :=
  suffix.data.isSuffixOf s.data

end strings

/-! ## package config: Load -/

namespace config

/-- The block of `Load` under the comment `Set defaults`, on the decoded
configuration. -/
def setDefaults (cfg : Config) : Config :=
  let cfg := if cfg.ConfigVersion = "" then { cfg with ConfigVersion := "1.0" } else cfg
  let cfg := if cfg.Theme = "" then { cfg with Theme := "default" } else cfg
  let cfg :=
    if cfg.Background.Type_ = "" then
      { cfg with Background := { cfg.Background with Type_ := "color", Value := "#1e1f26" } }
    else cfg
  let cfg :=
    if Float64.isZero cfg.Background.Opacity then
      { cfg with Background := { cfg.Background with Opacity := Float64.one } }
    else cfg
  cfg

/-- Embedding of `config.Load`. -/
def Load {σ : Type} (lib : Lib) (os : OS σ) (path : String) (s : σ) : Except Error Config :=
  match os.ReadFile path s with
  | .error err => .error (fmt.Errorf "failed to read config file: %w" [fmt.Arg.err err])
  | .ok data =>
    match lib.UnmarshalConfig data with
    | .error err => .error (fmt.Errorf "failed to parse config file: %w" [fmt.Arg.err err])
    | .ok cfg => .ok (setDefaults cfg)

end config

/-! ## package generator: icons -/

namespace generator

/-- A Go `map[string]IconData`: a list of bindings with at most one binding
per key. -/
abbrev IconTable := List (String × IconData)

/-- The map assignment `m[k] = v`. -/
def IconTable.set (m : IconTable) (k : String) (v : IconData) : IconTable :=
  (k, v) :: m.filter (fun e => e.1 != k)

/-- The map index expression `v, ok := m[k]`. -/
def IconTable.get (m : IconTable) (k : String) : Option IconData :=
  m.lookup k

/-- Embedding of the package initialiser `init`, which computes `iconsData`.
The argument is the outcome of reading the embedded dataset. -/
def init (lib : Lib) (embedded : Except Error String) : IconTable :=
  match embedded with
  | .error _ => []
  | .ok data =>
    match lib.UnmarshalIcons data with
    | .error _ => []
    | .ok icons => icons.foldl (fun m icon => m.set icon.Slug icon) []

/-- The markup returned for a slug that is not found. -/
def placeholderIcon : String :=
  "<svg xmlns=\"http://www.w3.org/2000/svg\" viewBox=\"0 0 24 24\" fill=\"currentColor\"><circle cx=\"12\" cy=\"12\" r=\"10\"/></svg>"

/-- Embedding of `GetSimpleIcon`; `iconsData` is the package variable. -/
def GetSimpleIcon (lib : Lib) (iconsData : IconTable) (slug : String) : String :=
  let slug := strings.ToLower lib slug
  match iconsData.get slug with
  | none => placeholderIcon
  | some icon =>
    "<svg xmlns=\"http://www.w3.org/2000/svg\" viewBox=\"0 0 24 24\" fill=\"currentColor\"><path d=\""
      ++ icon.Path ++ "\"/></svg>"

/-- Embedding of `GetIconColor`. -/
def GetIconColor (lib : Lib) (iconsData : IconTable) (slug : String) : String :=
  let slug := strings.ToLower lib slug
  match iconsData.get slug with
  | none => "#ffffff"
  | some icon => "#" ++ icon.Hex

/-! ## package generator: template data -/
/-- The format of the `image` branch: a Go raw string spanning four source
lines, each continuation line indented by three tabs. -/
def imageFormat : String :=
  "background-image: url(\x27%s\x27);\n\t\t\tbackground-size: cover;\n\t\t\tbackground-position: center;\n\t\t\tbackground-repeat: no-repeat;"

/-- Embedding of `(*Generator).generateBackgroundCSS`; the method only reads
`g.cfg.Background`, which is the argument here. -/
def generateBackgroundCSS (bg : config.Background) : String :=
  if bg.Type_ = "color" then
    fmt.Sprintf "background-color: %s;" [fmt.Arg.str bg.Value]
  else if bg.Type_ = "image" then
    let css := fmt.Sprintf imageFormat [fmt.Arg.str bg.Value]
    if bg.Blur > 0 then
      css ++ fmt.Sprintf " filter: blur(%dpx);" [fmt.Arg.int bg.Blur]
    else css
  else if bg.Type_ = "gradient" then
    fmt.Sprintf "background: %s;" [fmt.Arg.str bg.Value]
  else if bg.Type_ = "particles" then
    fmt.Sprintf "background-color: %s;" [fmt.Arg.str bg.Value]
  else
    "background-color: #1e1f26;"

/-- Embedding of `(*Generator).prepareTemplateData`. The three `for ... range`
loops append to the (initially nil) slices of `data` one element at a time. -/
def prepareTemplateData (lib : Lib) (iconsData : IconTable) (g : Generator) : TemplateData :=
  let descHTML := strings.ReplaceAll (lib.HTMLEscapeString g.cfg.Description) "\n" "<br>"
  let data : TemplateData :=
    { Config := g.cfg
      Theme := g.theme
      Links := []
      Sections := []
      Socials := []
      BackgroundCSS := generateBackgroundCSS g.cfg.Background
      DescriptionHTML := descHTML
      DefaultTheme := g.theme.DefaultColorScheme
      ThemeStyles := g.theme.Styles
      ThemeScripts := g.theme.Scripts }
  let data := g.cfg.Links.foldl (fun (data : TemplateData) link =>
    { data with Links := data.Links ++ [{
        Title := link.Title
        URL := link.URL
        IconSVG := GetSimpleIcon lib iconsData link.Icon
        IconURL := link.IconURL
        Color := link.Color }] }) data
  let data := g.cfg.Sections.foldl (fun (data : TemplateData) sect =>
    let sectionData : SectionData := { Title := sect.Title, Links := [] }
    let sectionData := sect.Links.foldl (fun (sectionData : SectionData) link =>
      { sectionData with Links := sectionData.Links ++ [{
          Title := link.Title
          URL := link.URL
          IconSVG := GetSimpleIcon lib iconsData link.Icon
          IconURL := link.IconURL
          Color := link.Color }] }) sectionData
    { data with Sections := data.Sections ++ [sectionData] }) data
  let data := g.cfg.Socials.foldl (fun (data : TemplateData) social =>
    { data with Socials := data.Socials ++ [{
        URL := social.URL
        IconSVG := GetSimpleIcon lib iconsData social.Icon
        Color := social.Color }] }) data
  data

end generator

/-! ## package theme: Load -/

namespace theme

/-- Embedding of `legacyManifest`. -/
def legacyManifest {σ : Type} (lib : Lib) (os : OS σ) (themePath : String) (s : σ) :
    ThemeManifest :=
  let manifest : ThemeManifest :=
    { Name := lib.Base themePath
      Version := "1.0.0"
      Author := ""
      Description := ""
      License := ""
      Features := { Particles := false, Animations := false }
      Styles := []
      Scripts := []
      DefaultColorScheme := "" }
  if os.Stat (lib.Join [themePath, "styles.css"]) s = StatResult.ok then
    { manifest with Styles := ["styles.css"] }
  else manifest

/-- Embedding of `applyDefaults`; the manifest updated in place by the Go
function is the result here. -/
def applyDefaults {σ : Type} (lib : Lib) (os : OS σ) (manifest : ThemeManifest)
    (themePath : String) (s : σ) : ThemeManifest :=
  let manifest :=
    if manifest.Name = "" then { manifest with Name := lib.Base themePath } else manifest
  let manifest :=
    if manifest.Version = "" then { manifest with Version := "1.0.0" } else manifest
  if manifest.Styles.length = 0 then
    if os.Stat (lib.Join [themePath, "styles", "base.css"]) s = StatResult.ok then
      { manifest with Styles := ["styles/base.css"] }
    else if os.Stat (lib.Join [themePath, "styles.css"]) s = StatResult.ok then
      { manifest with Styles := ["styles.css"] }
    else manifest
  else manifest

/-- Embedding of `theme.Load`. -/
def Load {σ : Type} (lib : Lib) (os : OS σ) (themePath : String) (s : σ) :
    Except Error ThemeManifest :=
  let manifestPath := lib.Join [themePath, "theme.yaml"]
  if os.Stat manifestPath s = StatResult.notExist then
    .ok (legacyManifest lib os themePath s)
  else
    match os.ReadFile manifestPath s with
    | .error err => .error err
    | .ok data =>
      match lib.UnmarshalManifest data with
      | .error err => .error err
      | .ok manifest => .ok (applyDefaults lib os manifest themePath s)

end theme

/-! ## package generator: Generate -/

namespace generator

/-- Embedding of `generator.New`. -/
def New {σ : Type} (lib : Lib) (os : OS σ) (cfg : config.Config) (themesDir outputDir : String)
    (s : σ) : Except Error Generator :=
  let themePath := lib.Join [themesDir, cfg.Theme]
  match theme.Load lib os themePath s with
  | .error err => .error (fmt.Errorf "failed to load theme manifest: %w" [fmt.Arg.err err])
  | .ok themeManifest =>
    .ok { cfg := cfg, themePath := themePath, outputDir := outputDir, theme := themeManifest }

/-- Embedding of `copyFile`. -/
def copyFile {σ : Type} (os : OS σ) (src dst : String) (s : σ) : σ × Option Error :=
  match os.ReadFile src s with
  | .error err => (s, some err)
  | .ok data => os.WriteFile dst data s

/-- Outcome of a step that may recurse into directories: `none` when the
recursion budget is exhausted, otherwise the new state and the error (if any). -/
abbrev Outcome (σ : Type) := Option (σ × Option Error)

/-- Sequencing of steps with Go's `if err != nil { return err }`. -/
def Outcome.andThen {σ : Type} (r : Outcome σ) (k : σ → Outcome σ) : Outcome σ :=
  match r with
  | none => none
  | some (s, some err) => some (s, some err)
  | some (s, none) => k s

/-- A `for _, entry := range entries` loop whose body returns its error. -/
def forEntries {σ : Type} (body : DirEntry → σ → Outcome σ) : List DirEntry → σ → Outcome σ
  | [], s => some (s, none)
  | entry :: rest, s => (body entry s).andThen (forEntries body rest)

/-- Embedding of `copyDir`. The first argument bounds the depth of the
recursion into subdirectories. -/
def copyDir {σ : Type} (lib : Lib) (os : OS σ) : Nat → String → String → σ → Outcome σ
  | 0, _, _, _ => none
  | fuel + 1, src, dst, s =>
    match os.MkdirAll dst s with
    | (s, some err) => some (s, some err)
    | (s, none) =>
      match os.ReadDir src s with
      | .error err => some (s, some err)
      | .ok entries =>
        forEntries (fun entry s =>
          let srcPath := lib.Join [src, entry.Name]
          let dstPath := lib.Join [dst, entry.Name]
          if entry.IsDir then copyDir lib os fuel srcPath dstPath s
          else some (copyFile os srcPath dstPath s)) entries s

/-- Embedding of `(*Generator).copyThemeAssets`. -/
def copyThemeAssets {σ : Type} (lib : Lib) (os : OS σ) (fuel : Nat) (g : Generator) (s : σ) :
    Outcome σ :=
  let copySubdir (name : String) (s : σ) : Outcome σ :=
    let srcDir := lib.Join [g.themePath, name]
    if os.Stat srcDir s = StatResult.ok then
      copyDir lib os fuel srcDir (lib.Join [g.outputDir, name]) s
    else some (s, none)
  (copySubdir "styles" s).andThen fun s =>
  (copySubdir "scripts" s).andThen fun s =>
  (copySubdir "assets" s).andThen fun s =>
  let srcCSS := lib.Join [g.themePath, "styles.css"]
  Outcome.andThen (if os.Stat srcCSS s = StatResult.ok then
      some (copyFile os srcCSS (lib.Join [g.outputDir, "styles.css"]) s)
    else some (s, none)) fun s =>
  match os.ReadDir g.themePath s with
  | .error err => some (s, some err)
  | .ok entries =>
    forEntries (fun entry s =>
      if strings.HasSuffix entry.Name ".js" then
        some (copyFile os (lib.Join [g.themePath, entry.Name])
          (lib.Join [g.outputDir, entry.Name]) s)
      else some (s, none)) entries s

/-- Embedding of `(*Generator).copyUserAssets`. -/
def copyUserAssets {σ : Type} (lib : Lib) (os : OS σ) (fuel : Nat) (g : Generator) (s : σ) :
    Outcome σ :=
  Outcome.andThen (if g.cfg.Avatar ≠ "" ∧ ¬ strings.HasPrefix g.cfg.Avatar "http://"
        ∧ ¬ strings.HasPrefix g.cfg.Avatar "https://" then
      let srcAvatar := lib.Join ["assets", g.cfg.Avatar]
      if os.Stat srcAvatar s = StatResult.ok then
        some (copyFile os srcAvatar (lib.Join [g.outputDir, g.cfg.Avatar]) s)
      else some (s, none)
    else some (s, none)) fun s =>
  let userAssetsDir := "assets"
  if os.Stat userAssetsDir s = StatResult.ok then
    copyDir lib os fuel userAssetsDir (lib.Join [g.outputDir, "assets"]) s
  else some (s, none)

/-- Embedding of `(*Generator).Generate`; `iconsData` is the package variable
and `fuel` bounds the depth of directory recursion while copying. -/
def Generate {σ : Type} (lib : Lib) (os : OS σ) (iconsData : IconTable) (fuel : Nat)
    (g : Generator) (s : σ) : Outcome σ :=
  match os.MkdirAll g.outputDir s with
  | (s, some err) =>
    some (s, some (fmt.Errorf "failed to create output directory: %w" [fmt.Arg.err err]))
  | (s, none) =>
    let tmplPath := lib.Join [g.themePath, "template.html"]
    match os.ParseFiles tmplPath s with
    | .error err => some (s, some (fmt.Errorf "failed to parse template: %w" [fmt.Arg.err err]))
    | .ok tmpl =>
      let data := prepareTemplateData lib iconsData g
      match tmpl.Execute data with
      | (_, some err) =>
        some (s, some (fmt.Errorf "failed to execute template: %w" [fmt.Arg.err err]))
      | (buf, none) =>
        let indexPath := lib.Join [g.outputDir, "index.html"]
        match os.WriteFile indexPath buf s with
        | (s, some err) =>
          some (s, some (fmt.Errorf "failed to write index.html: %w" [fmt.Arg.err err]))
        | (s, none) =>
          match copyThemeAssets lib os fuel g s with
          | none => none
          | some (s, some err) =>
            some (s, some (fmt.Errorf "failed to copy theme assets: %w" [fmt.Arg.err err]))
          | some (s, none) =>
            match copyUserAssets lib os fuel g s with
            | none => none
            | some (s, some err) =>
              some (s, some (fmt.Errorf "failed to copy user assets: %w" [fmt.Arg.err err]))
            | some (s, none) => some (s, none)

end generator

/-! ## An in-memory operating system

A concrete filesystem, library and template engine on which the embedding can
be evaluated. Paths are relative and already clean (no `.`, `..` or doubled
separators), the separator is `/`. -/

namespace mem

/-- A node of the file tree: a regular file with its contents, or a directory. -/
inductive Node where
  | file (content : String)
  | dir
deriving Repr, DecidableEq

/-- A filesystem state: the nodes by path, and the paths on which opening a
file (for reading or for writing) is denied. -/
structure FS where
  nodes : List (String × Node)
  denied : List String
deriving Repr, DecidableEq

/-- The name `n` when `path` is `dir/n` with `n` a single path element. -/
def childName (dir path : String) : Option String :=
  let d := dir.data ++ ['/']
  if d.isPrefixOf path.data then
    let name := path.data.drop d.length
    if name ≠ [] ∧ '/' ∉ name then some (String.mk name) else none
  else none

/-- The non-empty elements of a path. -/
def elements (path : String) : List String :=
  ((path.data.splitOn '/').map String.mk).filter (fun e => e ≠ "")

/-- The function `filepath.Join` on clean relative elements. -/
def Join (elems : List String) : String :=
  "/".intercalate (elems.filter (fun e => e ≠ ""))

/-- The function `filepath.Base`: the last element of the path. -/
def Base (path : String) : String :=
  if path = "" then "."
  else match (elements path).getLast? with
    | some e => e
    | none => "/"

/-- The path and its ancestors, outermost first. -/
def ancestors (path : String) : List String :=
  ((elements path).inits.drop 1).map Join

/-- Binds `path` to `node`, replacing an existing binding. -/
def FS.set (s : FS) (path : String) (node : Node) : FS :=
  if (s.nodes.lookup path).isSome then
    { s with nodes := s.nodes.map (fun e => if e.1 = path then (path, node) else e) }
  else { s with nodes := s.nodes ++ [(path, node)] }

/-- The function `os.Stat`. -/
def Stat (path : String) (s : FS) : StatResult :=
  if (s.nodes.lookup path).isSome then StatResult.ok else StatResult.notExist

/-- The function `os.ReadFile`. -/
def ReadFile (path : String) (s : FS) : Except Error String :=
  match s.nodes.lookup path with
  | none => .error ("open " ++ path ++ ": no such file or directory")
  | some Node.dir => .error ("read " ++ path ++ ": is a directory")
  | some (Node.file content) =>
    if path ∈ s.denied then .error ("open " ++ path ++ ": permission denied")
    else .ok content

/-- The function `os.ReadDir`; the entries come in the order of the node list. -/
def ReadDir (path : String) (s : FS) : Except Error (List DirEntry) :=
  match s.nodes.lookup path with
  | none => .error ("open " ++ path ++ ": no such file or directory")
  | some (Node.file _) => .error ("readdir " ++ path ++ ": not a directory")
  | some Node.dir =>
    if path ∈ s.denied then .error ("open " ++ path ++ ": permission denied")
    else .ok (s.nodes.filterMap fun e =>
      (childName path e.1).map fun name => { Name := name, IsDir := e.2 = Node.dir })

/-- Creates the directories of the list that are missing, outermost first. -/
def mkdirs : List String → FS → FS × Option Error
  | [], s => (s, none)
  | path :: rest, s =>
    match s.nodes.lookup path with
    | some Node.dir => mkdirs rest s
    | some (Node.file _) => (s, some ("mkdir " ++ path ++ ": not a directory"))
    | none =>
      if path ∈ s.denied then (s, some ("mkdir " ++ path ++ ": permission denied"))
      else mkdirs rest (s.set path Node.dir)

/-- The function `os.MkdirAll`. -/
def MkdirAll (path : String) (s : FS) : FS × Option Error :=
  mkdirs (ancestors path) s

/-- The function `os.WriteFile`: the parent directory must exist, the path must
not be a directory and opening it must not be denied. -/
def WriteFile (path data : String) (s : FS) : FS × Option Error :=
  if path ∈ s.denied then (s, some ("open " ++ path ++ ": permission denied"))
  else if s.nodes.lookup path = some Node.dir then
    (s, some ("open " ++ path ++ ": is a directory"))
  else
    match ((ancestors path).dropLast).getLast? with
    | none => (s.set path (Node.file data), none)
    | some parent =>
      if s.nodes.lookup parent = some Node.dir then (s.set path (Node.file data), none)
      else (s, some ("open " ++ path ++ ": no such file or directory"))

/-- Whether a template text contains the action delimiter. -/
def hasAction : List Char → Bool
  | [] => false
  | '\x7b' :: '\x7b' :: _ => true
  | _ :: rest => hasAction rest

/-- A template engine for templates without actions: such a template is
written out as it is; a text with an action delimiter is refused. -/
def ParseFiles (path : String) (s : FS) : Except Error Template :=
  match ReadFile path s with
  | .error err => .error err
  | .ok text =>
    if hasAction text.data then
      .error ("template: " ++ Base path ++ ": unsupported action")
    else .ok { Execute := fun _ => (text, none) }

/-- The in-memory operating system. -/
def os : OS FS where
  Stat := Stat
  ReadFile := ReadFile
  ReadDir := ReadDir
  MkdirAll := MkdirAll
  WriteFile := WriteFile
  ParseFiles := ParseFiles

/-- The function `template.HTMLEscapeString` on one character. -/
def escapeChar (c : Char) : List Char :=
  if c = '<' then "&lt;".data
  else if c = '>' then "&gt;".data
  else if c = '&' then "&amp;".data
  else if c = '"' then "&#34;".data
  else if c = '\x27' then "&#39;".data
  else [c]

/-- A library for the examples: case mapping of ASCII letters, and decoders
given by the finite tables of the documents they accept. -/
def lib (configs : List (String × config.Config))
    (manifests : List (String × theme.ThemeManifest))
    (datasets : List (String × List generator.IconData)) : Lib where
  unicodeToLower := Char.toLower
  HTMLEscapeString := fun s => String.mk (s.data.flatMap escapeChar)
  Join := Join
  Base := Base
  UnmarshalConfig := fun data =>
    match configs.lookup data with
    | some cfg => .ok cfg
    | none => .error "yaml: unsupported document"
  UnmarshalManifest := fun data =>
    match manifests.lookup data with
    | some manifest => .ok manifest
    | none => .error "yaml: unsupported document"
  UnmarshalIcons := fun data =>
    match datasets.lookup data with
    | some icons => .ok icons
    | none => .error "unexpected end of JSON input"

end mem

/-! ## command linkme: build and the rebuild executor -/

namespace linkme

/-- Go constant `defaultConfigPath`. -/
def defaultConfigPath : String := "config/config.yml"

/-- Go constant `defaultThemesDir`. -/
def defaultThemesDir : String := "themes"

/-- Go constant `defaultOutputDir`. -/
def defaultOutputDir : String := "dist"

/-- Embedding of `build`. -/
def build {σ : Type} (lib : Lib) (os : OS σ) (iconsData : generator.IconTable) (fuel : Nat)
    (s : σ) : generator.Outcome σ :=
  match config.Load lib os defaultConfigPath s with
  | .error err => some (s, some (fmt.Errorf "failed to load config: %w" [fmt.Arg.err err]))
  | .ok cfg =>
    match generator.New lib os cfg defaultThemesDir defaultOutputDir s with
    | .error err =>
      some (s, some (fmt.Errorf "failed to initialize generator: %w" [fmt.Arg.err err]))
    | .ok gen =>
      match generator.Generate lib os iconsData fuel gen s with
      | none => none
      | some (s, some err) =>
        some (s, some (fmt.Errorf "failed to generate site: %w" [fmt.Arg.err err]))
      | some (s, none) => some (s, none)

/-- The body of the loop `for range rebuild` of `watch`, run for one received
signal: the new filesystem state and the lines printed (on standard output or
through the logger, whose time stamp is left out). The loop goes on to the next
signal in either case. -/
def rebuildOnce {σ : Type} (lib : Lib) (os : OS σ) (iconsData : generator.IconTable)
    (fuel : Nat) (s : σ) : Option (σ × List String) :=
  match build lib os iconsData fuel s with
  | none => none
  | some (s, some err) =>
    some (s, ["\n--- Rebuilding... ---", fmt.Sprintf "Build error: %v" [fmt.Arg.err err]])
  | some (s, none) => some (s, ["\n--- Rebuilding... ---", "--- Rebuild complete ---"])

end linkme

/-! ## command linkme: the watcher loop -/

namespace fsnotify

/-- The bit `fsnotify.Rename` of an `Op`. -/
def Rename : Nat := 8

/-- The bit `fsnotify.Chmod` of an `Op`. -/
def Chmod : Nat := 16

end fsnotify

namespace time

end time

namespace linkme

/-- One step of a run: a case of the `select` taken by the goroutine at an
instant, or another goroutine receiving from `rebuild`. -/
inductive Step where
  /-- The case `event, ok := <-watcher.Events` with `ok`. -/
  | event (now : Nat) (op : Nat)
  /-- The case `event, ok := <-watcher.Events` on the closed channel. -/
  | eventsClosed (now : Nat)
  /-- The case `<-debounce`. -/
  | timer (now : Nat)
  /-- The case `err, ok := <-watcher.Errors` with `ok`. -/
  | error (now : Nat)
  /-- The case `err, ok := <-watcher.Errors` on the closed channel. -/
  | errorsClosed (now : Nat)
  /-- A receive from `rebuild` by the rebuild executor or a preview session. -/
  | received (now : Nat)
deriving Repr, DecidableEq

/-- The instant of a step. -/
def Step.now : Step → Nat
  | .event now _ => now
  | .eventsClosed now => now
  | .timer now => now
  | .error now => now
  | .errorsClosed now => now
  | .received now => now

/-- The non-blocking send `select { case rebuild <- struct{}{}: default: }` on
the channel of capacity 1: whether the channel holds a value after it. The
send proceeds when the channel is empty, the `default` branch is taken when it
is full. -/
def trySend (full : Bool) : Bool :=
  if full then full else true

end linkme

/-! ## command linkme: the rebuild executor and the preview sessions -/

namespace linkme

/-- One run of the handler of `/__livereload`: the events written to the
response, whether the context of the request is cancelled (the client has
disconnected), and whether the handler has returned. -/
structure PreviewSession where
  events : List String
  cancelled : Bool
  returned : Bool
deriving Repr, DecidableEq

/-- The goroutines of `watch` that share the channel `rebuild`, after the
initial build: the filesystem, the lines printed, the number of times the
rebuild executor has run `build`, whether `rebuild` (capacity 1) holds a value,
and the handlers of `/__livereload` in the order of their requests. -/
structure WatchState (σ : Type) where
  fs : σ
  console : List String
  builds : Nat
  rebuild : Bool
  sessions : List PreviewSession

/-- One step of one of the goroutines. -/
inductive WatchStep where
  /-- The watcher goroutine takes the case `<-debounce` and does its
  non-blocking send on `rebuild`. -/
  | fire
  /-- The rebuild executor receives from `rebuild` (`for range rebuild`) and
  runs the body of its loop. -/
  | execute
  /-- A request for `/__livereload` arrives; its handler writes
  `data: connected` and enters its loop. -/
  | connect
  /-- The handler of session `i` takes the case `<-rebuild` and writes
  `data: reload`. -/
  | reload (i : Nat)
  /-- The client of session `i` disconnects: the context of its request is
  cancelled. -/
  | cancel (i : Nat)
  /-- The handler of session `i` takes the case `<-r.Context().Done()` and
  returns. -/
  | done (i : Nat)
deriving Repr, DecidableEq

/-- Applies `f` to the session of index `i`; `none` when there is no such
session or `f` gives `none`. -/
def updateSession (f : PreviewSession → Option PreviewSession) :
    Nat → List PreviewSession → Option (List PreviewSession)
  | _, [] => none
  | 0, s :: rest => (f s).map (fun s => s :: rest)
  | i + 1, s :: rest => (updateSession f i rest).map (fun rest => s :: rest)

/-- One step of the goroutines that share `rebuild`; `none` when the step
cannot be taken: a receive from `rebuild` needs a buffered value, a handler that
has returned takes no case, and the case `<-r.Context().Done()` needs a
cancelled context. The rebuild executor runs `build` within its step. -/
def watchStep {σ : Type} (lib : Lib) (os : OS σ) (iconsData : generator.IconTable)
    (fuel : Nat) (st : WatchState σ) : WatchStep → Option (WatchState σ)
  | .fire => some { st with rebuild := trySend st.rebuild }
  | .execute =>
    if !st.rebuild then none
    else
      match rebuildOnce lib os iconsData fuel st.fs with
      | none => none
      | some (fs, lines) =>
        some { st with
          fs := fs
          console := st.console ++ lines
          builds := st.builds + 1
          rebuild := false }
  | .connect =>
    some { st with
      sessions := st.sessions
        ++ [{ events := ["data: connected\n\n"], cancelled := false, returned := false }] }
  | .reload i =>
    if !st.rebuild then none
    else
      match updateSession (fun s =>
          if s.returned then none
          else some { s with events := s.events ++ ["data: reload\n\n"] }) i st.sessions with
      | none => none
      | some sessions => some { st with rebuild := false, sessions := sessions }
  | .cancel i =>
    match updateSession (fun s => some { s with cancelled := true }) i st.sessions with
    | none => none
    | some sessions => some { st with sessions := sessions }
  | .done i =>
    match updateSession (fun s =>
        if s.cancelled && !s.returned then some { s with returned := true }
        else none) i st.sessions with
    | none => none
    | some sessions => some { st with sessions := sessions }

/-- A run of the goroutines: the steps taken one after the other. -/
def watchRun {σ : Type} (lib : Lib) (os : OS σ) (iconsData : generator.IconTable)
    (fuel : Nat) : WatchState σ → List WatchStep → Option (WatchState σ)
  | st, [] => some st
  | st, step :: rest =>
    match watchStep lib os iconsData fuel st step with
    | none => none
    | some st => watchRun lib os iconsData fuel st rest

/-- The number of `reload` events written to the sessions. -/
def reloads : List PreviewSession → Nat
  | [] => 0
  | s :: rest => s.events.count "data: reload\n\n" + reloads rest

/-- The number of steps in which the watcher fires. -/
def firesOf : List WatchStep → Nat
  | [] => 0
  | .fire :: rest => firesOf rest + 1
  | _ :: rest => firesOf rest

end linkme

namespace mem

/-- A library for the examples whose one profile document is `name: Ada`. -/
def profileLib : Lib :=
  lib [("name: Ada\n",
    { ConfigVersion := "", Name := "Ada", Subtitle := "", Description := "", Avatar := "",
      Theme := "", Background := ⟨"", "", 0, 0⟩, Links := [], Sections := [],
      Socials := [] })] [] []

/-- The filesystem after the initial build of that profile with a theme made
of a template and a root-level stylesheet. -/
def builtSite : FS :=
  { nodes := [("config", Node.dir),
      ("config/config.yml", Node.file "name: Ada\n"),
      ("themes", Node.dir), ("themes/default", Node.dir),
      ("themes/default/template.html", Node.file "<html>page</html>"),
      ("themes/default/styles.css", Node.file "body \x7b\x7d"),
      ("dist", Node.dir),
      ("dist/index.html", Node.file "<html>page</html>"),
      ("dist/styles.css", Node.file "body \x7b\x7d")],
    denied := [] }

/-- The goroutines of `watch` once the initial build is done and one preview
session has connected: nothing printed yet, no rebuild yet, `rebuild` empty. -/
def onePreview : linkme.WatchState FS :=
  { fs := builtSite
    console := []
    builds := 0
    rebuild := false
    sessions := [{ events := ["data: connected\n\n"], cancelled := false, returned := false }] }

end mem

/-! # Theorems -/

/-! ## Background style -/

/-- C1: for a background record with a recognised type tag,
`generateBackgroundCSS` is the dispatch table. Tag `color` gives
`background-color: <value>;`, tag `particles` gives what `color` gives for the
same record, tag `gradient` gives `background: <value>;`, and tag `image` gives
the background-image declaration with the value as url, cover size, center
position and no-repeat, followed by the clause ` filter: blur(<blur>px);`
exactly when `blur > 0`. The value is copied verbatim in every case. -/
theorem generateBackgroundCSS_dispatch (value : String) (blur : Int) (opacity : Float64) :
    generator.generateBackgroundCSS ⟨"color", value, blur, opacity⟩
        = "background-color: " ++ value ++ ";"
    ∧ generator.generateBackgroundCSS ⟨"particles", value, blur, opacity⟩
        = generator.generateBackgroundCSS ⟨"color", value, blur, opacity⟩
    ∧ generator.generateBackgroundCSS ⟨"gradient", value, blur, opacity⟩
        = "background: " ++ value ++ ";"
    ∧ generator.generateBackgroundCSS ⟨"image", value, blur, opacity⟩
        = "background-image: url(\x27" ++ value
          ++ "\x27);\n\t\t\tbackground-size: cover;\n\t\t\tbackground-position: center;\n\t\t\tbackground-repeat: no-repeat;"
          ++ (if 0 < blur then " filter: blur(" ++ toString blur.toNat ++ "px);" else "") := by
  refine ⟨?_, ?_, ?_, ?_⟩
  · apply String.ext
    simp [generator.generateBackgroundCSS, fmt.Sprintf, fmt.expand]
  · simp [generator.generateBackgroundCSS]
  · apply String.ext
    simp [generator.generateBackgroundCSS, fmt.Sprintf, fmt.expand]
  · apply String.ext
    by_cases hb : 0 < blur
    · have hb2 : ¬ blur < 0 := by omega
      simp [generator.generateBackgroundCSS, fmt.Sprintf, fmt.expand, generator.imageFormat, hb,
        fmt.formatInt, hb2]
    · simp [generator.generateBackgroundCSS, fmt.Sprintf, fmt.expand, generator.imageFormat, hb]

/-- C1, evaluated: type `color` with value `#111111` gives
`background-color: #111111;`. -/
theorem generateBackgroundCSS_dispatch_witness :
    generator.generateBackgroundCSS ⟨"color", "#111111", 0, 0⟩ = "background-color: #111111;" := by
  have h := (generateBackgroundCSS_dispatch "#111111" 0 0).1
  rw [h]
  decide

/-- C2, as stated, fails: a record with the recognised tag `color` and an empty
value does not give the default string; it gives `background-color: ;`. -/
theorem generateBackgroundCSS_empty_value_counterexample :
    generator.generateBackgroundCSS ⟨"color", "", 0, 0⟩ = "background-color: ;"
    ∧ generator.generateBackgroundCSS ⟨"color", "", 0, 0⟩ ≠ "background-color: #1e1f26;" := by
  decide

/-- C2, amended: `generateBackgroundCSS` returns a style string for every
record; when the type tag is none of `color`, `image`, `gradient`,
`particles` (unset included) the result is the default string
`background-color: #1e1f26;` whatever the value; when the tag is recognised
and the value is empty the result is not the default string (the declaration
of the tag is produced with the empty value). -/
theorem generateBackgroundCSS_default (bg : config.Background) :
    (∃ css : String, generator.generateBackgroundCSS bg = css)
    ∧ (bg.Type_ ∉ ["color", "image", "gradient", "particles"] →
        generator.generateBackgroundCSS bg = "background-color: #1e1f26;")
    ∧ (bg.Type_ ∈ ["color", "image", "gradient", "particles"] → bg.Value = "" →
        generator.generateBackgroundCSS bg ≠ "background-color: #1e1f26;") := by
  refine ⟨⟨_, rfl⟩, ?_, ?_⟩
  · intro h
    simp only [List.mem_cons, List.mem_singleton, List.not_mem_nil, or_false, not_or] at h
    obtain ⟨h1, h2, h3, h4⟩ := h
    simp [generator.generateBackgroundCSS, h1, h2, h3, h4]
  · intro h hv
    obtain ⟨t, v, b, o⟩ := bg
    simp only at hv
    subst hv
    simp only [List.mem_cons, List.mem_singleton, List.not_mem_nil, or_false] at h
    rcases h with h | h | h | h <;> subst h <;> intro heq <;>
      have hdata := congrArg String.data heq
    · simp [generator.generateBackgroundCSS, fmt.Sprintf, fmt.expand] at hdata
    · by_cases hb : 0 < b
      · simp [generator.generateBackgroundCSS, fmt.Sprintf, fmt.expand, generator.imageFormat,
          hb] at hdata
      · simp [generator.generateBackgroundCSS, fmt.Sprintf, fmt.expand, generator.imageFormat,
          hb] at hdata
    · simp [generator.generateBackgroundCSS, fmt.Sprintf, fmt.expand] at hdata
    · simp [generator.generateBackgroundCSS, fmt.Sprintf, fmt.expand] at hdata

/-- C2, amended, evaluated: the unrecognised tag `video` with a non-empty value
gives the default string. -/
theorem generateBackgroundCSS_default_witness :
    generator.generateBackgroundCSS ⟨"video", "clip.mp4", 2, 0⟩ = "background-color: #1e1f26;" :=
  (generateBackgroundCSS_default ⟨"video", "clip.mp4", 2, 0⟩).2.1 (by decide)

/-! ## Icons -/

/-- Reading a map after an assignment. -/
theorem IconTable_get_set (m : generator.IconTable) (k k2 : String) (v : generator.IconData) :
    (m.set k v).get k2 = if k2 = k then some v else m.get k2 := by
  unfold generator.IconTable.set generator.IconTable.get
  by_cases h : k2 = k
  · subst h
    simp [List.lookup_cons]
  · have hne : (k2 == k) = false := by simpa using h
    simp only [List.lookup_cons, hne, if_neg h]
    induction m with
    | nil => simp
    | cons e es ih =>
      obtain ⟨a, b⟩ := e
      by_cases ha : a = k
      · subst ha
        simp [List.filter_cons, List.lookup_cons, hne, ih]
      · have hak : (a != k) = true := by simpa using ha
        simp only [List.filter_cons, hak, if_true, List.lookup_cons]
        rw [ih]

/-- The table built by the loop of `init` binds a slug to the last dataset
entry that carries it. -/
theorem foldl_set_get (icons : List generator.IconData) (m : generator.IconTable) (k : String) :
    (icons.foldl (fun m icon => m.set icon.Slug icon) m).get k
      = ((icons.reverse.find? (fun icon => icon.Slug = k)).orElse fun _ => m.get k) := by
  induction icons generalizing m with
  | nil => simp
  | cons icon rest ih =>
    rw [List.foldl_cons, ih, IconTable_get_set]
    simp only [List.reverse_cons, List.find?_append]
    cases hfind : List.find? (fun icon => decide (icon.Slug = k)) rest.reverse with
    | some found => simp
    | none =>
      by_cases hk : k = icon.Slug
      · subst hk
        simp
      · have hk2 : ¬ icon.Slug = k := fun h => hk h.symm
        simp [hk, hk2]

/-- C5: `GetSimpleIcon` returns markup for every table and slug, and the
markup depends only on the lower-cased slug. If the table binds the lower-cased
slug, the result is the svg markup around the path data of that entry;
otherwise it is the placeholder circle. With the empty table, which is what
`init` computes when the dataset cannot be read or decoded, every lookup gives
the placeholder; when the dataset decodes, the entry used is the last one of
the dataset whose slug is the lower-cased slug. -/
theorem GetSimpleIcon_lookup (lib : Lib) (iconsData : generator.IconTable) (slug : String) :
    (∀ other : String, strings.ToLower lib other = strings.ToLower lib slug →
        generator.GetSimpleIcon lib iconsData other = generator.GetSimpleIcon lib iconsData slug)
    ∧ (∀ icon : generator.IconData, iconsData.get (strings.ToLower lib slug) = some icon →
        generator.GetSimpleIcon lib iconsData slug
          = "<svg xmlns=\"http://www.w3.org/2000/svg\" viewBox=\"0 0 24 24\" fill=\"currentColor\"><path d=\""
            ++ icon.Path ++ "\"/></svg>")
    ∧ (iconsData.get (strings.ToLower lib slug) = none →
        generator.GetSimpleIcon lib iconsData slug
          = "<svg xmlns=\"http://www.w3.org/2000/svg\" viewBox=\"0 0 24 24\" fill=\"currentColor\"><circle cx=\"12\" cy=\"12\" r=\"10\"/></svg>")
    ∧ generator.GetSimpleIcon lib [] slug = generator.placeholderIcon
    ∧ (∀ err : Error, generator.init lib (.error err) = [])
    ∧ (∀ (data : String) (err : Error), lib.UnmarshalIcons data = .error err →
        generator.init lib (.ok data) = [])
    ∧ (∀ (data : String) (icons : List generator.IconData), lib.UnmarshalIcons data = .ok icons →
        (generator.init lib (.ok data)).get (strings.ToLower lib slug)
          = icons.reverse.find? (fun icon => icon.Slug = strings.ToLower lib slug)) := by
  refine ⟨?_, ?_, ?_, ?_, ?_, ?_, ?_⟩
  · intro other h
    simp [generator.GetSimpleIcon, h]
  · intro icon h
    simp [generator.GetSimpleIcon, h]
  · intro h
    simp [generator.GetSimpleIcon, h, generator.placeholderIcon]
  · simp [generator.GetSimpleIcon, generator.IconTable.get]
  · intro err
    rfl
  · intro data err h
    simp [generator.init, h]
  · intro data icons h
    simp only [generator.init, h]
    rw [foldl_set_get]
    cases List.find? (fun icon => decide (icon.Slug = strings.ToLower lib slug)) icons.reverse <;>
      simp [generator.IconTable.get]

/-- C5, evaluated: with a table that binds `github`, the slug `GitHub` gives
the markup around the path data of that entry. -/
theorem GetSimpleIcon_lookup_witness :
    generator.GetSimpleIcon (mem.lib [] [] [])
        [("github", ⟨"GitHub", "github", "181717", "M12 .297c-6.63 0-12 5.373-12 12z"⟩)] "GitHub"
      = "<svg xmlns=\"http://www.w3.org/2000/svg\" viewBox=\"0 0 24 24\" fill=\"currentColor\"><path d=\""
          ++ "M12 .297c-6.63 0-12 5.373-12 12z" ++ "\"/></svg>" :=
  (GetSimpleIcon_lookup (mem.lib [] [] [])
    [("github", ⟨"GitHub", "github", "181717", "M12 .297c-6.63 0-12 5.373-12 12z"⟩)] "GitHub").2.1
    ⟨"GitHub", "github", "181717", "M12 .297c-6.63 0-12 5.373-12 12z"⟩ (by decide)

/-! ## Template data -/

/-- Appending one converted link per iteration builds the converted list. -/
theorem foldl_append_links (f : config.Link → generator.LinkData) (links : List config.Link)
    (data : generator.TemplateData) :
    links.foldl (fun (data : generator.TemplateData) link =>
        { data with Links := data.Links ++ [f link] }) data
      = { data with Links := data.Links ++ links.map f } := by
  induction links generalizing data with
  | nil => simp
  | cons link rest ih => simp [List.foldl_cons, ih]

/-- The inner loop over the links of one section. -/
theorem foldl_append_sectionLinks (f : config.Link → generator.LinkData)
    (links : List config.Link) (sd : generator.SectionData) :
    links.foldl (fun (sd : generator.SectionData) link =>
        { sd with Links := sd.Links ++ [f link] }) sd
      = { sd with Links := sd.Links ++ links.map f } := by
  induction links generalizing sd with
  | nil => simp
  | cons link rest ih => simp [List.foldl_cons, ih]

/-- The loop over the sections. -/
theorem foldl_append_sections (f : config.Section → generator.SectionData)
    (sections : List config.Section) (data : generator.TemplateData) :
    sections.foldl (fun (data : generator.TemplateData) sect =>
        { data with Sections := data.Sections ++ [f sect] }) data
      = { data with Sections := data.Sections ++ sections.map f } := by
  induction sections generalizing data with
  | nil => simp
  | cons sect rest ih => simp [List.foldl_cons, ih]

/-- The loop over the socials. -/
theorem foldl_append_socials (f : config.Social → generator.SocialData)
    (socials : List config.Social) (data : generator.TemplateData) :
    socials.foldl (fun (data : generator.TemplateData) social =>
        { data with Socials := data.Socials ++ [f social] }) data
      = { data with Socials := data.Socials ++ socials.map f } := by
  induction socials generalizing data with
  | nil => simp
  | cons social rest ih => simp [List.foldl_cons, ih]

/-- The three lists of `prepareTemplateData`, as maps over the configuration. -/
theorem prepareTemplateData_maps (lib : Lib) (iconsData : generator.IconTable)
    (g : generator.Generator) :
    (generator.prepareTemplateData lib iconsData g).Links
        = g.cfg.Links.map (fun link =>
            { Title := link.Title
              URL := link.URL
              IconSVG := generator.GetSimpleIcon lib iconsData link.Icon
              IconURL := link.IconURL
              Color := link.Color })
    ∧ (generator.prepareTemplateData lib iconsData g).Sections
        = g.cfg.Sections.map (fun sect =>
            { Title := sect.Title
              Links := sect.Links.map (fun link =>
                { Title := link.Title
                  URL := link.URL
                  IconSVG := generator.GetSimpleIcon lib iconsData link.Icon
                  IconURL := link.IconURL
                  Color := link.Color }) })
    ∧ (generator.prepareTemplateData lib iconsData g).Socials
        = g.cfg.Socials.map (fun social =>
            { URL := social.URL
              IconSVG := generator.GetSimpleIcon lib iconsData social.Icon
              Color := social.Color }) := by
  simp only [generator.prepareTemplateData, foldl_append_links, foldl_append_sectionLinks,
    foldl_append_sections, foldl_append_socials]
  simp

/-- C3: `prepareTemplateData` converts the links of the profile one by one and
in order: the list `Links` has the length of the profile's links and its
elements carry, position by position, the title, the URL, the icon URL and the
colour of the link, with `GetSimpleIcon` of the link's icon slug as markup. The
same holds for the links of every section, the sections being kept in order,
and for the socials. In particular, at a position whose link has an icon slug
that the icon table does not bind (after lower-casing, as `GetSimpleIcon`
looks it up), the markup is the placeholder circle, which is not empty. -/
theorem prepareTemplateData_links (lib : Lib) (iconsData : generator.IconTable)
    (g : generator.Generator) :
    ((generator.prepareTemplateData lib iconsData g).Links.length = g.cfg.Links.length
      ∧ (generator.prepareTemplateData lib iconsData g).Links
        = g.cfg.Links.map (fun link =>
            { Title := link.Title
              URL := link.URL
              IconSVG := generator.GetSimpleIcon lib iconsData link.Icon
              IconURL := link.IconURL
              Color := link.Color }))
    ∧ ((generator.prepareTemplateData lib iconsData g).Sections.length = g.cfg.Sections.length
      ∧ (generator.prepareTemplateData lib iconsData g).Sections
        = g.cfg.Sections.map (fun sect =>
            { Title := sect.Title
              Links := sect.Links.map (fun link =>
                { Title := link.Title
                  URL := link.URL
                  IconSVG := generator.GetSimpleIcon lib iconsData link.Icon
                  IconURL := link.IconURL
                  Color := link.Color }) }))
    ∧ ((generator.prepareTemplateData lib iconsData g).Socials.length = g.cfg.Socials.length
      ∧ (generator.prepareTemplateData lib iconsData g).Socials
        = g.cfg.Socials.map (fun social =>
            { URL := social.URL
              IconSVG := generator.GetSimpleIcon lib iconsData social.Icon
              Color := social.Color }))
    ∧ (∀ (i : Nat) (link : config.Link), g.cfg.Links[i]? = some link →
        iconsData.get (strings.ToLower lib link.Icon) = none →
        ∃ ld : generator.LinkData,
          (generator.prepareTemplateData lib iconsData g).Links[i]? = some ld
          ∧ ld.Title = link.Title ∧ ld.URL = link.URL
          ∧ ld.IconSVG
            = "<svg xmlns=\"http://www.w3.org/2000/svg\" viewBox=\"0 0 24 24\" fill=\"currentColor\"><circle cx=\"12\" cy=\"12\" r=\"10\"/></svg>"
          ∧ ld.IconSVG ≠ "") := by
  obtain ⟨hl, hs, hc⟩ := prepareTemplateData_maps lib iconsData g
  refine ⟨⟨?_, hl⟩, ⟨?_, hs⟩, ⟨?_, hc⟩, ?_⟩
  · rw [hl, List.length_map]
  · rw [hs, List.length_map]
  · rw [hc, List.length_map]
  · intro i link hi hget
    refine ⟨{ Title := link.Title
              URL := link.URL
              IconSVG := generator.GetSimpleIcon lib iconsData link.Icon
              IconURL := link.IconURL
              Color := link.Color }, ?_, rfl, rfl, ?_, ?_⟩
    · rw [hl, List.getElem?_map, hi]
      rfl
    · simp [generator.GetSimpleIcon, hget, generator.placeholderIcon]
    · simp only [generator.GetSimpleIcon, hget]
      decide

/-- C3, evaluated: a profile with the one link `Blog`, whose icon slug `rss` is
not bound by the table, gets the placeholder circle at position 0. -/
theorem prepareTemplateData_links_witness :
    ∃ ld : generator.LinkData,
      (generator.prepareTemplateData (mem.lib [] [] [])
          [("github", ⟨"GitHub", "github", "181717", "M12 .297c-6.63 0-12 5.373-12 12z"⟩)]
          { cfg :=
              { ConfigVersion := "1.0", Name := "Ada", Subtitle := "", Description := "",
                Avatar := "", Theme := "default",
                Background := ⟨"color", "#111111", 0, Float64.one⟩,
                Links := [⟨"Blog", "https://x.test", "rss", "", ""⟩],
                Sections := [], Socials := [] }
            themePath := "themes/default"
            outputDir := "dist"
            theme := ⟨"default", "1.0.0", "", "", "", ⟨false, false⟩, ["styles/base.css"], [],
              ""⟩ }).Links[0]? = some ld
      ∧ ld.Title = "Blog" ∧ ld.URL = "https://x.test"
      ∧ ld.IconSVG
        = "<svg xmlns=\"http://www.w3.org/2000/svg\" viewBox=\"0 0 24 24\" fill=\"currentColor\"><circle cx=\"12\" cy=\"12\" r=\"10\"/></svg>"
      ∧ ld.IconSVG ≠ "" :=
  (prepareTemplateData_links (mem.lib [] [] [])
    [("github", ⟨"GitHub", "github", "181717", "M12 .297c-6.63 0-12 5.373-12 12z"⟩)]
    { cfg :=
        { ConfigVersion := "1.0", Name := "Ada", Subtitle := "", Description := "",
          Avatar := "", Theme := "default",
          Background := ⟨"color", "#111111", 0, Float64.one⟩,
          Links := [⟨"Blog", "https://x.test", "rss", "", ""⟩],
          Sections := [], Socials := [] }
      themePath := "themes/default"
      outputDir := "dist"
      theme := ⟨"default", "1.0.0", "", "", "", ⟨false, false⟩, ["styles/base.css"], [],
        ""⟩ }).2.2.2 0 ⟨"Blog", "https://x.test", "rss", "", ""⟩ (by decide) (by decide)

/-! ## Loading the profile -/

/-- C4, as stated, fails: for the document `background: {value: red}` (a value
and no type tag) the decoder yields the value `red`, and the default-filling
step of `Load` replaces it by `#1e1f26`: a field that was present is not left
as parsed. -/
theorem config_Load_overwrites_value_counterexample :
    (config.setDefaults
        { ConfigVersion := "", Name := "", Subtitle := "", Description := "", Avatar := "",
          Theme := "", Background := ⟨"", "red", 0, 0⟩, Links := [], Sections := [],
          Socials := [] }).Background.Value = "#1e1f26"
    ∧ (config.setDefaults
        { ConfigVersion := "", Name := "", Subtitle := "", Description := "", Avatar := "",
          Theme := "", Background := ⟨"", "red", 0, 0⟩, Links := [], Sections := [],
          Socials := [] }).Background.Value ≠ "red" := by
  decide

/-- C4, amended: when the profile document is read and decoded, `Load`
succeeds, and the loaded profile differs from the decoded one in four places
at most: the schema version is `1.0` if it was empty, the theme is `default`
if it was empty, the background is the pair of type `color` and value
`#1e1f26` if its type tag was empty (a value decoded without a type tag is
replaced), and the opacity is `1.0` if it was zero. Blur, name, subtitle,
description, avatar, links, sections and socials are as decoded, and so is
each of the defaulted fields whose condition does not hold. -/
theorem config_Load_defaults {σ : Type} (lib : Lib) (os : OS σ) (path : String) (s : σ)
    (data : String) (cfg : config.Config)
    (hread : os.ReadFile path s = .ok data) (hparse : lib.UnmarshalConfig data = .ok cfg) :
    ∃ loaded : config.Config, config.Load lib os path s = .ok loaded
      ∧ loaded.ConfigVersion = (if cfg.ConfigVersion = "" then "1.0" else cfg.ConfigVersion)
      ∧ loaded.Theme = (if cfg.Theme = "" then "default" else cfg.Theme)
      ∧ loaded.Background.Type_
          = (if cfg.Background.Type_ = "" then "color" else cfg.Background.Type_)
      ∧ loaded.Background.Value
          = (if cfg.Background.Type_ = "" then "#1e1f26" else cfg.Background.Value)
      ∧ loaded.Background.Opacity
          = (if Float64.isZero cfg.Background.Opacity then Float64.one
              else cfg.Background.Opacity)
      ∧ loaded.Background.Blur = cfg.Background.Blur
      ∧ loaded.Name = cfg.Name ∧ loaded.Subtitle = cfg.Subtitle
      ∧ loaded.Description = cfg.Description ∧ loaded.Avatar = cfg.Avatar
      ∧ loaded.Links = cfg.Links ∧ loaded.Sections = cfg.Sections
      ∧ loaded.Socials = cfg.Socials := by
  refine ⟨config.setDefaults cfg, ?_, ?_⟩
  · simp [config.Load, hread, hparse]
  · obtain ⟨cv, nm, st, ds, av, th, ⟨bt, bv, bb, bo⟩, ls, ss, so⟩ := cfg
    simp only [config.setDefaults]
    by_cases h1 : cv = "" <;> by_cases h2 : th = "" <;> by_cases h3 : bt = ""
      <;> by_cases h4 : Float64.isZero bo = true <;> simp [h1, h2, h3, h4]

/-- C4, amended, evaluated on the in-memory system: the profile document
`name: Ada`, decoded with every other field zero, is loaded with the name as
decoded and the four defaults. -/
theorem config_Load_defaults_witness :
    ∃ loaded : config.Config,
      config.Load
          (mem.lib [("name: Ada\n",
            { ConfigVersion := "", Name := "Ada", Subtitle := "", Description := "",
              Avatar := "", Theme := "", Background := ⟨"", "", 0, 0⟩, Links := [],
              Sections := [], Socials := [] })] [] [])
          mem.os "config/config.yml"
          { nodes := [("config", mem.Node.dir),
              ("config/config.yml", mem.Node.file "name: Ada\n")],
            denied := [] } = .ok loaded
      ∧ loaded.ConfigVersion = "1.0" ∧ loaded.Theme = "default"
      ∧ loaded.Background.Type_ = "color" ∧ loaded.Background.Value = "#1e1f26"
      ∧ loaded.Background.Opacity = Float64.one ∧ loaded.Background.Blur = 0
      ∧ loaded.Name = "Ada" ∧ loaded.Subtitle = "" ∧ loaded.Description = ""
      ∧ loaded.Avatar = "" ∧ loaded.Links = [] ∧ loaded.Sections = []
      ∧ loaded.Socials = [] :=
  config_Load_defaults
    (mem.lib [("name: Ada\n",
      { ConfigVersion := "", Name := "Ada", Subtitle := "", Description := "",
        Avatar := "", Theme := "", Background := ⟨"", "", 0, 0⟩, Links := [],
        Sections := [], Socials := [] })] [] [])
    mem.os "config/config.yml"
    { nodes := [("config", mem.Node.dir),
        ("config/config.yml", mem.Node.file "name: Ada\n")],
      denied := [] }
    "name: Ada\n"
    { ConfigVersion := "", Name := "Ada", Subtitle := "", Description := "",
      Avatar := "", Theme := "", Background := ⟨"", "", 0, 0⟩, Links := [],
      Sections := [], Socials := [] }
    (by decide) (by decide)

/-! ## Loading the theme -/

/-- C6: for a theme directory without manifest file (`os.Stat` of `theme.yaml`
reports that it does not exist), `theme.Load` succeeds; the manifest it returns
has the base name of the directory as name, and its style list is
`["styles.css"]` when `os.Stat` finds the root-level stylesheet and is empty
when it does not. -/
theorem theme_Load_without_manifest {σ : Type} (lib : Lib) (os : OS σ) (themePath : String)
    (s : σ) (h : os.Stat (lib.Join [themePath, "theme.yaml"]) s = StatResult.notExist) :
    ∃ manifest : theme.ThemeManifest, theme.Load lib os themePath s = .ok manifest
      ∧ manifest.Name = lib.Base themePath
      ∧ (os.Stat (lib.Join [themePath, "styles.css"]) s = StatResult.ok →
          manifest.Styles = ["styles.css"])
      ∧ (os.Stat (lib.Join [themePath, "styles.css"]) s ≠ StatResult.ok →
          manifest.Styles = []) := by
  refine ⟨theme.legacyManifest lib os themePath s, ?_, ?_, ?_, ?_⟩
  · simp [theme.Load, h]
  · unfold theme.legacyManifest
    by_cases hs : os.Stat (lib.Join [themePath, "styles.css"]) s = StatResult.ok <;> simp [hs]
  · intro hs
    simp [theme.legacyManifest, hs]
  · intro hs
    simp [theme.legacyManifest, hs]

/-- C6, evaluated on the in-memory system: the directory `themes/retro` holds a
template and a root-level stylesheet and no manifest; the manifest returned is
named `retro` and lists exactly `styles.css`. -/
theorem theme_Load_without_manifest_witness :
    ∃ manifest : theme.ThemeManifest,
      theme.Load (mem.lib [] [] []) mem.os "themes/retro"
          { nodes := [("themes", mem.Node.dir), ("themes/retro", mem.Node.dir),
              ("themes/retro/template.html", mem.Node.file "<html></html>"),
              ("themes/retro/styles.css", mem.Node.file "body \x7b\x7d")],
            denied := [] } = .ok manifest
      ∧ manifest.Name = "retro" ∧ manifest.Styles = ["styles.css"] := by
  obtain ⟨manifest, hload, hname, hstyles, _⟩ :=
    theme_Load_without_manifest (mem.lib [] [] []) mem.os "themes/retro"
      { nodes := [("themes", mem.Node.dir), ("themes/retro", mem.Node.dir),
          ("themes/retro/template.html", mem.Node.file "<html></html>"),
          ("themes/retro/styles.css", mem.Node.file "body \x7b\x7d")],
        denied := [] } (by decide)
  exact ⟨manifest, hload, hname.trans (by decide), hstyles (by decide)⟩

/-- C7: `applyDefaults` fills each missing field on its own. The name becomes
the base name of the theme directory if it was empty and is unchanged
otherwise; the version becomes `1.0.0` if it was empty and is unchanged
otherwise; the style list, if it was empty, becomes `["styles/base.css"]` when
`os.Stat` finds that file, otherwise `["styles.css"]` when `os.Stat` finds that
file, otherwise stays empty, and a non-empty style list is unchanged. Every
other field of the manifest is unchanged. -/
theorem applyDefaults_fills_independently {σ : Type} (lib : Lib) (os : OS σ)
    (manifest : theme.ThemeManifest) (themePath : String) (s : σ) :
    (theme.applyDefaults lib os manifest themePath s).Name
        = (if manifest.Name = "" then lib.Base themePath else manifest.Name)
    ∧ (theme.applyDefaults lib os manifest themePath s).Version
        = (if manifest.Version = "" then "1.0.0" else manifest.Version)
    ∧ (theme.applyDefaults lib os manifest themePath s).Styles
        = (if manifest.Styles = [] then
            (if os.Stat (lib.Join [themePath, "styles", "base.css"]) s = StatResult.ok then
              ["styles/base.css"]
            else if os.Stat (lib.Join [themePath, "styles.css"]) s = StatResult.ok then
              ["styles.css"]
            else [])
          else manifest.Styles)
    ∧ (theme.applyDefaults lib os manifest themePath s).Author = manifest.Author
    ∧ (theme.applyDefaults lib os manifest themePath s).Description = manifest.Description
    ∧ (theme.applyDefaults lib os manifest themePath s).License = manifest.License
    ∧ (theme.applyDefaults lib os manifest themePath s).Features = manifest.Features
    ∧ (theme.applyDefaults lib os manifest themePath s).Scripts = manifest.Scripts
    ∧ (theme.applyDefaults lib os manifest themePath s).DefaultColorScheme
        = manifest.DefaultColorScheme := by
  obtain ⟨nm, vs, au, ds, li, fe, st, sc, dc⟩ := manifest
  simp only [theme.applyDefaults]
  by_cases h1 : nm = "" <;> by_cases h2 : vs = "" <;> by_cases h3 : st = []
    <;> by_cases h4 : os.Stat (lib.Join [themePath, "styles", "base.css"]) s = StatResult.ok
    <;> by_cases h5 : os.Stat (lib.Join [themePath, "styles.css"]) s = StatResult.ok
    <;> simp [h1, h2, h3, h4, h5]

/-! ## Generate -/

/-- C8: when parsing the page template of the theme fails, or executing it
fails, `Generate` returns an error, whatever the recursion budget, and the
filesystem is left as `os.MkdirAll` of the output directory left it; the page
file `index.html` at the output root then reads exactly as before the build
(creating the output directory does not change what a file reads as, which is
the hypothesis `hmkdir`). -/
theorem Generate_render_failure_keeps_page {σ : Type} (lib : Lib) (os : OS σ)
    (iconsData : generator.IconTable) (fuel : Nat) (g : generator.Generator) (s : σ)
    (hmkdir : os.ReadFile (lib.Join [g.outputDir, "index.html"]) (os.MkdirAll g.outputDir s).1
        = os.ReadFile (lib.Join [g.outputDir, "index.html"]) s)
    (hfail :
      (∃ err : Error,
        os.ParseFiles (lib.Join [g.themePath, "template.html"]) (os.MkdirAll g.outputDir s).1
          = .error err)
      ∨ (∃ (tmpl : Template) (buf : String) (err : Error),
        os.ParseFiles (lib.Join [g.themePath, "template.html"]) (os.MkdirAll g.outputDir s).1
          = .ok tmpl
        ∧ tmpl.Execute (generator.prepareTemplateData lib iconsData g) = (buf, some err))) :
    ∃ (after : σ) (err : Error),
      generator.Generate lib os iconsData fuel g s = some (after, some err)
      ∧ after = (os.MkdirAll g.outputDir s).1
      ∧ os.ReadFile (lib.Join [g.outputDir, "index.html"]) after
          = os.ReadFile (lib.Join [g.outputDir, "index.html"]) s := by
  cases hmk : os.MkdirAll g.outputDir s with
  | mk s1 merr =>
    rw [hmk] at hmkdir hfail
    simp only at hmkdir hfail
    cases merr with
    | some e =>
      exact ⟨s1, fmt.Errorf "failed to create output directory: %w" [fmt.Arg.err e],
        by simp [generator.Generate, hmk], rfl, hmkdir⟩
    | none =>
      rcases hfail with ⟨err, hp⟩ | ⟨tmpl, buf, err, hp, hx⟩
      · exact ⟨s1, fmt.Errorf "failed to parse template: %w" [fmt.Arg.err err],
          by simp [generator.Generate, hmk, hp], rfl, hmkdir⟩
      · exact ⟨s1, fmt.Errorf "failed to execute template: %w" [fmt.Arg.err err],
          by simp [generator.Generate, hmk, hp, hx], rfl, hmkdir⟩

/-- C8, evaluated on the in-memory system: the template of the theme has an
action that does not parse, the output directory holds the page of an earlier
build; `Generate` returns an error and the page reads as before. -/
theorem Generate_render_failure_keeps_page_witness :
    ∃ (after : mem.FS) (err : Error),
      generator.Generate (mem.lib [] [] []) mem.os [] 8
          { cfg :=
              { ConfigVersion := "1.0", Name := "Ada", Subtitle := "", Description := "",
                Avatar := "", Theme := "default",
                Background := ⟨"color", "#111111", 0, Float64.one⟩,
                Links := [⟨"Blog", "https://x.test", "rss", "", ""⟩],
                Sections := [], Socials := [] }
            themePath := "themes/default"
            outputDir := "dist"
            theme := ⟨"default", "1.0.0", "", "", "", ⟨false, false⟩, [], [], ""⟩ }
          { nodes := [("dist", mem.Node.dir),
              ("dist/index.html", mem.Node.file "<html>old</html>"),
              ("themes", mem.Node.dir), ("themes/default", mem.Node.dir),
              ("themes/default/template.html", mem.Node.file "<html>\x7b\x7b</html>")],
            denied := [] } = some (after, some err)
      ∧ mem.os.ReadFile "dist/index.html" after = .ok "<html>old</html>" := by
  obtain ⟨after, err, hgen, _, hread⟩ :=
    Generate_render_failure_keeps_page (mem.lib [] [] []) mem.os [] 8
      { cfg :=
          { ConfigVersion := "1.0", Name := "Ada", Subtitle := "", Description := "",
            Avatar := "", Theme := "default",
            Background := ⟨"color", "#111111", 0, Float64.one⟩,
            Links := [⟨"Blog", "https://x.test", "rss", "", ""⟩],
            Sections := [], Socials := [] }
        themePath := "themes/default"
        outputDir := "dist"
        theme := ⟨"default", "1.0.0", "", "", "", ⟨false, false⟩, [], [], ""⟩ }
      { nodes := [("dist", mem.Node.dir),
          ("dist/index.html", mem.Node.file "<html>old</html>"),
          ("themes", mem.Node.dir), ("themes/default", mem.Node.dir),
          ("themes/default/template.html", mem.Node.file "<html>\x7b\x7b</html>")],
        denied := [] }
      (by decide)
      (Or.inl ⟨"template: template.html: unsupported action", by rfl⟩)
  exact ⟨after, err, hgen, hread.trans (by decide)⟩

/-- C9, as stated, fails: a rebuild in which copying a theme asset fails leaves
a new page behind. The first build, on a theme with the template
`<html>old</html>` and a root-level stylesheet, succeeds and writes that page.
The template is then edited and the stylesheet made unreadable. The rebuild
returns the copy error, which the rebuild executor logs, and `index.html` now
holds `<html>new</html>`, not the page of the previous successful build. -/
theorem Generate_asset_failure_counterexample :
    linkme.build
        (mem.lib [("name: Ada\n",
          { ConfigVersion := "", Name := "Ada", Subtitle := "", Description := "",
            Avatar := "", Theme := "", Background := ⟨"", "", 0, 0⟩, Links := [],
            Sections := [], Socials := [] })] [] []) mem.os [] 8
        { nodes := [("config", mem.Node.dir),
            ("config/config.yml", mem.Node.file "name: Ada\n"),
            ("themes", mem.Node.dir), ("themes/default", mem.Node.dir),
            ("themes/default/template.html", mem.Node.file "<html>old</html>"),
            ("themes/default/styles.css", mem.Node.file "body \x7b\x7d")],
          denied := [] }
      = some
        (mem.FS.mk [("config", mem.Node.dir),
            ("config/config.yml", mem.Node.file "name: Ada\n"),
            ("themes", mem.Node.dir), ("themes/default", mem.Node.dir),
            ("themes/default/template.html", mem.Node.file "<html>old</html>"),
            ("themes/default/styles.css", mem.Node.file "body \x7b\x7d"),
            ("dist", mem.Node.dir),
            ("dist/index.html", mem.Node.file "<html>old</html>"),
            ("dist/styles.css", mem.Node.file "body \x7b\x7d")] [], none)
    ∧ (linkme.rebuildOnce
        (mem.lib [("name: Ada\n",
          { ConfigVersion := "", Name := "Ada", Subtitle := "", Description := "",
            Avatar := "", Theme := "", Background := ⟨"", "", 0, 0⟩, Links := [],
            Sections := [], Socials := [] })] [] []) mem.os [] 8
        { nodes := [("config", mem.Node.dir),
            ("config/config.yml", mem.Node.file "name: Ada\n"),
            ("themes", mem.Node.dir), ("themes/default", mem.Node.dir),
            ("themes/default/template.html", mem.Node.file "<html>new</html>"),
            ("themes/default/styles.css", mem.Node.file "body \x7b\x7d"),
            ("dist", mem.Node.dir),
            ("dist/index.html", mem.Node.file "<html>old</html>"),
            ("dist/styles.css", mem.Node.file "body \x7b\x7d")],
          denied := ["themes/default/styles.css"] }).map
        (fun r => (mem.os.ReadFile "dist/index.html" r.1, r.2))
      = some (.ok "<html>new</html>",
          ["\n--- Rebuilding... ---",
           "Build error: failed to generate site: failed to copy theme assets: open themes/default/styles.css: permission denied"]) := by
  decide

/-- Copying a file to a destination other than `page` leaves `page` reading as
it did. -/
theorem copyFile_keeps_page {σ : Type} (os : OS σ) (page buf : String)
    (hwrites : ∀ (p data : String) (st : σ), p ≠ page → os.ReadFile page st = .ok buf →
      os.ReadFile page (os.WriteFile p data st).1 = .ok buf)
    (src dst : String) (s : σ) (hdst : dst ≠ page) (hs : os.ReadFile page s = .ok buf) :
    os.ReadFile page (generator.copyFile os src dst s).1 = .ok buf := by
  unfold generator.copyFile
  cases os.ReadFile src s with
  | error err => exact hs
  | ok data => exact hwrites dst data s hdst hs

/-- A sequence of two steps keeps what both steps keep. -/
theorem andThen_keeps {σ : Type} (P : σ → Prop) (r : generator.Outcome σ)
    (k : σ → generator.Outcome σ) (out : σ × Option Error)
    (hr : ∀ mid : σ × Option Error, r = some mid → P mid.1)
    (hk : ∀ (mid : σ) (res : σ × Option Error), P mid → k mid = some res → P res.1)
    (h : generator.Outcome.andThen r k = some out) : P out.1 := by
  unfold generator.Outcome.andThen at h
  split at h
  · exact absurd h (by simp)
  · rename_i st err
    have h2 := Option.some.inj h
    subst h2
    exact hr (st, some err) rfl
  · rename_i st
    exact hk st out (hr (st, none) rfl) h

/-- A loop over directory entries keeps what its body keeps. -/
theorem forEntries_keeps {σ : Type} (P : σ → Prop) (body : DirEntry → σ → generator.Outcome σ)
    (entries : List DirEntry)
    (hbody : ∀ entry ∈ entries, ∀ (st : σ) (res : σ × Option Error),
      P st → body entry st = some res → P res.1) :
    ∀ (s : σ) (out : σ × Option Error), P s →
      generator.forEntries body entries s = some out → P out.1 := by
  induction entries with
  | nil =>
    intro s out hs h
    simp only [generator.forEntries, Option.some.injEq] at h
    subst h
    exact hs
  | cons entry rest ih =>
    intro s out hs h
    simp only [generator.forEntries] at h
    refine andThen_keeps P (body entry s) _ out ?_ ?_ h
    · intro mid hmid
      exact hbody entry (List.mem_cons_self _ _) s mid hs hmid
    · intro mid res hmid hres
      exact ih (fun e he => hbody e (List.mem_cons_of_mem _ he)) mid res hmid hres

/-- Copying a directory tree into a destination from which no entry leads to
`page` leaves `page` reading as it did. The destinations are described by
`safe`, the entry names by `simple`. -/
theorem copyDir_keeps_page {σ : Type} (lib : Lib) (os : OS σ) (page buf : String)
    (simple safe : String → Prop)
    (hmkdirs : ∀ (p : String) (st : σ), os.ReadFile page st = .ok buf →
      os.ReadFile page (os.MkdirAll p st).1 = .ok buf)
    (hwrites : ∀ (p data : String) (st : σ), p ≠ page → os.ReadFile page st = .ok buf →
      os.ReadFile page (os.WriteFile p data st).1 = .ok buf)
    (hnames : ∀ (p : String) (st : σ) (entries : List DirEntry),
      os.ReadDir p st = .ok entries → ∀ entry ∈ entries, simple entry.Name)
    (hdeeper : ∀ d name : String, safe d → simple name → safe (lib.Join [d, name]))
    (hbelow : ∀ d name : String, safe d → simple name → lib.Join [d, name] ≠ page)
    (fuel : Nat) :
    ∀ (src dst : String) (s : σ) (out : σ × Option Error), safe dst →
      os.ReadFile page s = .ok buf →
      generator.copyDir lib os fuel src dst s = some out →
      os.ReadFile page out.1 = .ok buf := by
  induction fuel with
  | zero =>
    intro src dst s out _ _ h
    simp [generator.copyDir] at h
  | succ fuel ih =>
    intro src dst s out hsafe hs h
    simp only [generator.copyDir] at h
    have hmk := hmkdirs dst s hs
    cases hres : os.MkdirAll dst s with
    | mk s1 merr =>
      rw [hres] at h hmk
      simp only at h hmk
      cases merr with
      | some e =>
        simp only [Option.some.injEq] at h
        subst h
        exact hmk
      | none =>
        simp only at h
        cases hrd : os.ReadDir src s1 with
        | error e =>
          rw [hrd] at h
          simp only [Option.some.injEq] at h
          subst h
          exact hmk
        | ok entries =>
          rw [hrd] at h
          simp only at h
          refine forEntries_keeps (fun st => os.ReadFile page st = .ok buf) _ entries ?_ s1 out
            hmk h
          intro entry hentry st res hst hbody
          have hsimple := hnames src s1 entries hrd entry hentry
          by_cases hdir : entry.IsDir = true
          · simp only [hdir, if_true] at hbody
            exact ih _ _ st res (hdeeper dst entry.Name hsafe hsimple) hst hbody
          · simp only [hdir] at hbody
            simp only [Bool.false_eq_true, if_false, Option.some.injEq] at hbody
            subst hbody
            exact copyFile_keeps_page os page buf hwrites _ _ st
              (hbelow dst entry.Name hsafe hsimple) hst

/-- Copying the assets of the theme leaves `page` reading as it did, when none
of the destinations is `page`: the three asset directories of the output root
are `safe`, and neither `styles.css` nor a root-level script is copied onto
`page`. -/
theorem copyThemeAssets_keeps_page {σ : Type} (lib : Lib) (os : OS σ) (page buf : String)
    (simple safe : String → Prop)
    (hmkdirs : ∀ (p : String) (st : σ), os.ReadFile page st = .ok buf →
      os.ReadFile page (os.MkdirAll p st).1 = .ok buf)
    (hwrites : ∀ (p data : String) (st : σ), p ≠ page → os.ReadFile page st = .ok buf →
      os.ReadFile page (os.WriteFile p data st).1 = .ok buf)
    (hnames : ∀ (p : String) (st : σ) (entries : List DirEntry),
      os.ReadDir p st = .ok entries → ∀ entry ∈ entries, simple entry.Name)
    (hdeeper : ∀ d name : String, safe d → simple name → safe (lib.Join [d, name]))
    (hbelow : ∀ d name : String, safe d → simple name → lib.Join [d, name] ≠ page)
    (fuel : Nat) (g : generator.Generator)
    (hstyles : safe (lib.Join [g.outputDir, "styles"]))
    (hscripts : safe (lib.Join [g.outputDir, "scripts"]))
    (hassets : safe (lib.Join [g.outputDir, "assets"]))
    (hcss : lib.Join [g.outputDir, "styles.css"] ≠ page)
    (hjs : ∀ name : String, simple name → strings.HasSuffix name ".js" = true →
      lib.Join [g.outputDir, name] ≠ page)
    (s : σ) (out : σ × Option Error) (hs : os.ReadFile page s = .ok buf)
    (h : generator.copyThemeAssets lib os fuel g s = some out) :
    os.ReadFile page out.1 = .ok buf := by
  have hsub : ∀ (name : String) (st : σ) (res : σ × Option Error),
      safe (lib.Join [g.outputDir, name]) → os.ReadFile page st = .ok buf →
      (if os.Stat (lib.Join [g.themePath, name]) st = StatResult.ok then
          generator.copyDir lib os fuel (lib.Join [g.themePath, name])
            (lib.Join [g.outputDir, name]) st
        else some (st, none)) = some res →
      os.ReadFile page res.1 = .ok buf := by
    intro name st res hsafe hst hres
    split_ifs at hres
    · exact copyDir_keeps_page lib os page buf simple safe hmkdirs hwrites hnames hdeeper
        hbelow fuel _ _ st res hsafe hst hres
    · simp only [Option.some.injEq] at hres
      subst hres
      exact hst
  simp only [generator.copyThemeAssets] at h
  refine andThen_keeps (fun st => os.ReadFile page st = .ok buf) _ _ out
    (fun mid hmid => hsub "styles" s mid hstyles hs hmid) ?_ h
  intro s1 res1 hs1 h1
  refine andThen_keeps (fun st => os.ReadFile page st = .ok buf) _ _ res1
    (fun mid hmid => hsub "scripts" s1 mid hscripts hs1 hmid) ?_ h1
  intro s2 res2 hs2 h2
  refine andThen_keeps (fun st => os.ReadFile page st = .ok buf) _ _ res2
    (fun mid hmid => hsub "assets" s2 mid hassets hs2 hmid) ?_ h2
  intro s3 res3 hs3 h3
  refine andThen_keeps (fun st => os.ReadFile page st = .ok buf) _ _ res3 ?_ ?_ h3
  · intro mid hmid
    split_ifs at hmid
    · simp only [Option.some.injEq] at hmid
      subst hmid
      exact copyFile_keeps_page os page buf hwrites _ _ s3 hcss hs3
    · simp only [Option.some.injEq] at hmid
      subst hmid
      exact hs3
  · intro s4 res4 hs4 h4
    cases hrd : os.ReadDir g.themePath s4 with
    | error e =>
      rw [hrd] at h4
      simp only [Option.some.injEq] at h4
      subst h4
      exact hs4
    | ok entries =>
      rw [hrd] at h4
      simp only at h4
      refine forEntries_keeps (fun st => os.ReadFile page st = .ok buf) _ entries ?_ s4 res4
        hs4 h4
      intro entry hentry st res hst hbody
      have hsimple := hnames g.themePath s4 entries hrd entry hentry
      split_ifs at hbody with hsuffix
      · simp only [Option.some.injEq] at hbody
        subst hbody
        exact copyFile_keeps_page os page buf hwrites _ _ st (hjs entry.Name hsimple hsuffix) hst
      · simp only [Option.some.injEq] at hbody
        subst hbody
        exact hst

/-- Copying the assets of the user leaves `page` reading as it did, when the
avatar is not copied onto `page` and the asset directory of the output root is
`safe`. -/
theorem copyUserAssets_keeps_page {σ : Type} (lib : Lib) (os : OS σ) (page buf : String)
    (simple safe : String → Prop)
    (hmkdirs : ∀ (p : String) (st : σ), os.ReadFile page st = .ok buf →
      os.ReadFile page (os.MkdirAll p st).1 = .ok buf)
    (hwrites : ∀ (p data : String) (st : σ), p ≠ page → os.ReadFile page st = .ok buf →
      os.ReadFile page (os.WriteFile p data st).1 = .ok buf)
    (hnames : ∀ (p : String) (st : σ) (entries : List DirEntry),
      os.ReadDir p st = .ok entries → ∀ entry ∈ entries, simple entry.Name)
    (hdeeper : ∀ d name : String, safe d → simple name → safe (lib.Join [d, name]))
    (hbelow : ∀ d name : String, safe d → simple name → lib.Join [d, name] ≠ page)
    (fuel : Nat) (g : generator.Generator)
    (hassets : safe (lib.Join [g.outputDir, "assets"]))
    (havatar : lib.Join [g.outputDir, g.cfg.Avatar] ≠ page)
    (s : σ) (out : σ × Option Error) (hs : os.ReadFile page s = .ok buf)
    (h : generator.copyUserAssets lib os fuel g s = some out) :
    os.ReadFile page out.1 = .ok buf := by
  simp only [generator.copyUserAssets] at h
  refine andThen_keeps (fun st => os.ReadFile page st = .ok buf) _ _ out ?_ ?_ h
  · intro mid hmid
    split_ifs at hmid
    · simp only [Option.some.injEq] at hmid
      subst hmid
      exact copyFile_keeps_page os page buf hwrites _ _ s havatar hs
    · simp only [Option.some.injEq] at hmid
      subst hmid
      exact hs
    · simp only [Option.some.injEq] at hmid
      subst hmid
      exact hs
  · intro s1 res hs1 h1
    split_ifs at h1
    · exact copyDir_keeps_page lib os page buf simple safe hmkdirs hwrites hnames hdeeper
        hbelow fuel _ _ s1 res hassets hs1 h1
    · simp only [Option.some.injEq] at h1
      subst h1
      exact hs1

/-- C9, amended: when the profile and the theme load, the output directory is
in place, the template parses and executes and the page is written, a failure
while copying a theme asset or a user asset makes `Generate` return an error
that wraps the copy error; the rebuild executor prints it as a build error and
its loop body ends normally, as for a render failure. The page write is not
undone: the state left is the one reached by the copy steps run after it, and
`index.html` holds the newly rendered page, not the previous one, unless a copy
step is itself aimed at the page file. That exception is ruled out by the
hypotheses on the paths: entry names are `simple`, nothing below a `safe`
directory is the page file, the three asset directories of the output root are
`safe`, and neither `styles.css`, nor a root-level script, nor the avatar is
copied onto the page file. The hypotheses on the operating system say that
creating directories and writing other files leave the page file as it reads,
and that the page write stored the buffer. -/
theorem Generate_asset_failure_after_page_write {σ : Type} (lib : Lib) (os : OS σ)
    (iconsData : generator.IconTable) (fuel : Nat) (cfg : config.Config)
    (g : generator.Generator) (s s1 s2 s3 : σ) (tmpl : Template) (buf : String) (err : Error)
    (simple safe : String → Prop)
    (hmkdirs : ∀ (p : String) (st : σ),
      os.ReadFile (lib.Join [g.outputDir, "index.html"]) st = .ok buf →
      os.ReadFile (lib.Join [g.outputDir, "index.html"]) (os.MkdirAll p st).1 = .ok buf)
    (hwrites : ∀ (p data : String) (st : σ), p ≠ lib.Join [g.outputDir, "index.html"] →
      os.ReadFile (lib.Join [g.outputDir, "index.html"]) st = .ok buf →
      os.ReadFile (lib.Join [g.outputDir, "index.html"]) (os.WriteFile p data st).1 = .ok buf)
    (hnames : ∀ (p : String) (st : σ) (entries : List DirEntry),
      os.ReadDir p st = .ok entries → ∀ entry ∈ entries, simple entry.Name)
    (hdeeper : ∀ d name : String, safe d → simple name → safe (lib.Join [d, name]))
    (hbelow : ∀ d name : String, safe d → simple name →
      lib.Join [d, name] ≠ lib.Join [g.outputDir, "index.html"])
    (hstyles : safe (lib.Join [g.outputDir, "styles"]))
    (hscripts : safe (lib.Join [g.outputDir, "scripts"]))
    (hassets : safe (lib.Join [g.outputDir, "assets"]))
    (hcss : lib.Join [g.outputDir, "styles.css"] ≠ lib.Join [g.outputDir, "index.html"])
    (hjs : ∀ name : String, simple name → strings.HasSuffix name ".js" = true →
      lib.Join [g.outputDir, name] ≠ lib.Join [g.outputDir, "index.html"])
    (havatar : lib.Join [g.outputDir, g.cfg.Avatar] ≠ lib.Join [g.outputDir, "index.html"])
    (hload : config.Load lib os linkme.defaultConfigPath s = .ok cfg)
    (hnew : generator.New lib os cfg linkme.defaultThemesDir linkme.defaultOutputDir s = .ok g)
    (hmk : os.MkdirAll g.outputDir s = (s1, none))
    (hparse : os.ParseFiles (lib.Join [g.themePath, "template.html"]) s1 = .ok tmpl)
    (hexec : tmpl.Execute (generator.prepareTemplateData lib iconsData g) = (buf, none))
    (hwrite : os.WriteFile (lib.Join [g.outputDir, "index.html"]) buf s1 = (s2, none))
    (hread : os.ReadFile (lib.Join [g.outputDir, "index.html"]) s2 = .ok buf)
    (hcopy : generator.copyThemeAssets lib os fuel g s2 = some (s3, some err)
      ∨ ∃ mid : σ, generator.copyThemeAssets lib os fuel g s2 = some (mid, none)
          ∧ generator.copyUserAssets lib os fuel g mid = some (s3, some err)) :
    ∃ wrapped : Error,
      generator.Generate lib os iconsData fuel g s = some (s3, some wrapped)
      ∧ (wrapped = fmt.Errorf "failed to copy theme assets: %w" [fmt.Arg.err err]
          ∨ wrapped = fmt.Errorf "failed to copy user assets: %w" [fmt.Arg.err err])
      ∧ linkme.rebuildOnce lib os iconsData fuel s
          = some (s3, ["\n--- Rebuilding... ---",
              fmt.Sprintf "Build error: %v"
                [fmt.Arg.err (fmt.Errorf "failed to generate site: %w" [fmt.Arg.err wrapped])]])
      ∧ os.ReadFile (lib.Join [g.outputDir, "index.html"]) s3 = .ok buf := by
  have htheme : ∀ out : σ × Option Error,
      generator.copyThemeAssets lib os fuel g s2 = some out →
      os.ReadFile (lib.Join [g.outputDir, "index.html"]) out.1 = .ok buf :=
    fun out h => copyThemeAssets_keeps_page lib os _ buf simple safe hmkdirs hwrites hnames
      hdeeper hbelow fuel g hstyles hscripts hassets hcss hjs s2 out hread h
  rcases hcopy with hc | ⟨mid, hc, hu⟩
  · have hgen : generator.Generate lib os iconsData fuel g s
        = some (s3, some (fmt.Errorf "failed to copy theme assets: %w" [fmt.Arg.err err])) := by
      simp [generator.Generate, hmk, hparse, hexec, hwrite, hc]
    refine ⟨_, hgen, Or.inl rfl, ?_, htheme _ hc⟩
    simp [linkme.rebuildOnce, linkme.build, hload, hnew, hgen]
  · have hgen : generator.Generate lib os iconsData fuel g s
        = some (s3, some (fmt.Errorf "failed to copy user assets: %w" [fmt.Arg.err err])) := by
      simp [generator.Generate, hmk, hparse, hexec, hwrite, hc, hu]
    refine ⟨_, hgen, Or.inr rfl, ?_, ?_⟩
    · simp [linkme.rebuildOnce, linkme.build, hload, hnew, hgen]
    · exact copyUserAssets_keeps_page lib os _ buf simple safe hmkdirs hwrites hnames hdeeper
        hbelow fuel g hassets havatar mid (s3, some err) (htheme _ hc) hu

/-- A list of characters splits in one way only at its last separator. -/
theorem split_at_last_separator (a b c d : List Char) (hb : '/' ∉ b) (hd : '/' ∉ d)
    (h : a ++ '/' :: b = c ++ '/' :: d) : a = c ∧ b = d := by
  rcases List.append_eq_append_iff.mp h with ⟨e, hc, hbe⟩ | ⟨e, ha, hde⟩
  · cases e with
    | nil =>
      simp only [List.nil_append, List.cons.injEq, true_and] at hbe
      simp only [List.append_nil] at hc
      exact ⟨hc.symm, hbe⟩
    | cons x e =>
      simp only [List.cons_append, List.cons.injEq] at hbe
      exact absurd (hbe.2 ▸ (by simp : '/' ∈ e ++ '/' :: d)) hb
  · cases e with
    | nil =>
      simp only [List.nil_append, List.cons.injEq, true_and] at hde
      simp only [List.append_nil] at ha
      exact ⟨ha, hde.symm⟩
    | cons x e =>
      simp only [List.cons_append, List.cons.injEq] at hde
      exact absurd (hde.2 ▸ (by simp : '/' ∈ e ++ '/' :: b)) hd

/-- The in-memory `Join` of a directory and a name, both non-empty. -/
theorem mem_Join_pair (d name : String) (hd : d ≠ "") (hn : name ≠ "") :
    (mem.Join [d, name]).data = d.data ++ '/' :: name.data := by
  simp [mem.Join, List.filter, hd, hn, String.intercalate, String.intercalate.go]

/-- Binding a path leaves the lookup of every other path as it was. -/
theorem mem_lookup_set (s : mem.FS) (p q : String) (node : mem.Node) (hq : q ≠ p) :
    (s.set p node).nodes.lookup q = s.nodes.lookup q ∧ (s.set p node).denied = s.denied := by
  have hqp : (q == p) = false := by simpa using hq
  unfold mem.FS.set
  split_ifs
  · refine ⟨?_, rfl⟩
    simp only
    induction s.nodes with
    | nil => rfl
    | cons e rest ih =>
      obtain ⟨k, v⟩ := e
      by_cases hk : k = p
      · subst hk
        simp [List.lookup_cons, hqp, ih]
      · simp only [List.map_cons, hk, if_false, List.lookup_cons]
        rw [ih]
  · refine ⟨?_, rfl⟩
    simp only
    induction s.nodes with
    | nil => simp [List.lookup_cons, hqp]
    | cons e rest ih =>
      obtain ⟨k, v⟩ := e
      simp only [List.cons_append, List.lookup_cons]
      rw [ih]

/-- A file that reads as `buf` is bound to a file node. -/
theorem mem_ReadFile_ok (s : mem.FS) (page buf : String) (h : mem.ReadFile page s = .ok buf) :
    s.nodes.lookup page = some (mem.Node.file buf) ∧ page ∉ s.denied := by
  unfold mem.ReadFile at h
  split at h
  · exact absurd h (by simp)
  · exact absurd h (by simp)
  · rename_i content hlook
    split_ifs at h with hden
    simp only [Except.ok.injEq] at h
    subst h
    exact ⟨hlook, hden⟩

/-- Binding another path leaves a file reading as it did. -/
theorem mem_ReadFile_set (s : mem.FS) (p page : String) (node : mem.Node) (hp : p ≠ page) :
    mem.ReadFile page (s.set p node) = mem.ReadFile page s := by
  obtain ⟨h1, h2⟩ := mem_lookup_set s p page node (fun h => hp h.symm)
  unfold mem.ReadFile
  rw [h1, h2]

/-- Creating directories leaves a file reading as it did. -/
theorem mem_mkdirs_keeps (page buf : String) (paths : List String) :
    ∀ s : mem.FS, mem.ReadFile page s = .ok buf →
      mem.ReadFile page (mem.mkdirs paths s).1 = .ok buf := by
  induction paths with
  | nil =>
    intro s hs
    exact hs
  | cons path rest ih =>
    intro s hs
    unfold mem.mkdirs
    split
    · exact ih s hs
    · exact hs
    · rename_i hnone
      split_ifs
      · exact hs
      · apply ih
        have hne : path ≠ page := by
          intro heq
          subst heq
          rw [(mem_ReadFile_ok s path buf hs).1] at hnone
          exact absurd hnone (by simp)
        rw [mem_ReadFile_set s path page _ hne]
        exact hs

/-- Writing another file leaves a file reading as it did. -/
theorem mem_WriteFile_keeps (page buf p data : String) (s : mem.FS) (hp : p ≠ page)
    (hs : mem.ReadFile page s = .ok buf) :
    mem.ReadFile page (mem.WriteFile p data s).1 = .ok buf := by
  unfold mem.WriteFile
  split_ifs
  · exact hs
  · exact hs
  · split
    · simp only
      rw [mem_ReadFile_set s p page _ hp]
      exact hs
    · split_ifs
      · simp only
        rw [mem_ReadFile_set s p page _ hp]
        exact hs
      · exact hs

/-- The names listed by the in-memory `ReadDir` are single path elements. -/
theorem mem_ReadDir_names (p : String) (s : mem.FS) (entries : List DirEntry)
    (h : mem.ReadDir p s = .ok entries) :
    ∀ entry ∈ entries, entry.Name ≠ "" ∧ '/' ∉ entry.Name.data := by
  unfold mem.ReadDir at h
  split at h
  · exact absurd h (by simp)
  · exact absurd h (by simp)
  · split_ifs at h
    simp only [Except.ok.injEq] at h
    subst h
    intro entry hentry
    simp only [List.mem_filterMap, Option.map_eq_some'] at hentry
    obtain ⟨e, _, name, hname, rfl⟩ := hentry
    simp only
    unfold mem.childName at hname
    simp only at hname
    split_ifs at hname with h1 h2
    simp only [Option.some.injEq] at hname
    subst hname
    refine ⟨?_, h2.2⟩
    intro hempty
    have := congrArg String.data hempty
    exact h2.1 this

/-- The in-memory `Join` of a non-empty directory and a single path element is
the page file of `dist` only for `dist` and `index.html`. -/
theorem mem_Join_page (d name : String) (hd : d ≠ "") (hn : name ≠ "")
    (hsep : '/' ∉ name.data) (h : mem.Join [d, name] = "dist/index.html") :
    d = "dist" ∧ name = "index.html" := by
  have hdata := congrArg String.data h
  rw [mem_Join_pair d name hd hn] at hdata
  have hsplit := split_at_last_separator d.data name.data "dist".data "index.html".data hsep
    (by decide) (by simpa using hdata)
  exact ⟨String.ext hsplit.1, String.ext hsplit.2⟩

/-- Below a directory other than `dist`, the in-memory `Join` stays off `dist`
and off its page file. -/
theorem mem_Join_safe (d name : String) (hd : d ≠ "" ∧ d ≠ "dist")
    (hn : name ≠ "" ∧ '/' ∉ name.data) :
    (mem.Join [d, name] ≠ "" ∧ mem.Join [d, name] ≠ "dist")
    ∧ mem.Join [d, name] ≠ "dist/index.html" := by
  have hdata := mem_Join_pair d name hd.1 hn.1
  refine ⟨⟨?_, ?_⟩, ?_⟩
  · intro h
    rw [h] at hdata
    exact absurd hdata (by simp)
  · intro h
    rw [h] at hdata
    have hmem : '/' ∈ "dist".data := by
      rw [hdata]
      simp
    exact absurd hmem (by decide)
  · intro h
    exact hd.2 (mem_Join_page d name hd.1 hn.1 hn.2 h).1

/-- A root-level script is not copied onto the page file of `dist`. -/
theorem mem_Join_script (name : String) (hn : name ≠ "" ∧ '/' ∉ name.data)
    (hjs : strings.HasSuffix name ".js" = true) :
    mem.Join ["dist", name] ≠ "dist/index.html" := by
  intro h
  have hname := (mem_Join_page "dist" name (by decide) hn.1 hn.2 h).2
  subst hname
  exact absurd hjs (by decide)

/-- C9, amended, evaluated on the in-memory system: the output directory holds
the page `<html>old</html>` of the previous build, the template now reads
`<html>new</html>` and the stylesheet of the theme cannot be opened. `Generate`
returns the copy error, the rebuild executor prints it, and the page file holds
`<html>new</html>`. -/
theorem Generate_asset_failure_after_page_write_witness :
    ∃ wrapped : Error,
      generator.Generate mem.profileLib mem.os [] 8
          { cfg :=
              { ConfigVersion := "1.0", Name := "Ada", Subtitle := "", Description := "",
                Avatar := "", Theme := "default",
                Background := ⟨"color", "#1e1f26", 0, Float64.one⟩,
                Links := [], Sections := [], Socials := [] }
            themePath := "themes/default"
            outputDir := "dist"
            theme := ⟨"default", "1.0.0", "", "", "", ⟨false, false⟩, ["styles.css"], [], ""⟩ }
          { nodes := [("config", mem.Node.dir),
              ("config/config.yml", mem.Node.file "name: Ada\n"),
              ("themes", mem.Node.dir), ("themes/default", mem.Node.dir),
              ("themes/default/template.html", mem.Node.file "<html>new</html>"),
              ("themes/default/styles.css", mem.Node.file "body \x7b\x7d"),
              ("dist", mem.Node.dir),
              ("dist/index.html", mem.Node.file "<html>old</html>"),
              ("dist/styles.css", mem.Node.file "body \x7b\x7d")],
            denied := ["themes/default/styles.css"] }
        = some
          (mem.FS.mk [("config", mem.Node.dir),
              ("config/config.yml", mem.Node.file "name: Ada\n"),
              ("themes", mem.Node.dir), ("themes/default", mem.Node.dir),
              ("themes/default/template.html", mem.Node.file "<html>new</html>"),
              ("themes/default/styles.css", mem.Node.file "body \x7b\x7d"),
              ("dist", mem.Node.dir),
              ("dist/index.html", mem.Node.file "<html>new</html>"),
              ("dist/styles.css", mem.Node.file "body \x7b\x7d")]
            ["themes/default/styles.css"], some wrapped)
      ∧ (wrapped = fmt.Errorf "failed to copy theme assets: %w"
            [fmt.Arg.err "open themes/default/styles.css: permission denied"]
          ∨ wrapped = fmt.Errorf "failed to copy user assets: %w"
            [fmt.Arg.err "open themes/default/styles.css: permission denied"])
      ∧ linkme.rebuildOnce mem.profileLib mem.os [] 8
          { nodes := [("config", mem.Node.dir),
              ("config/config.yml", mem.Node.file "name: Ada\n"),
              ("themes", mem.Node.dir), ("themes/default", mem.Node.dir),
              ("themes/default/template.html", mem.Node.file "<html>new</html>"),
              ("themes/default/styles.css", mem.Node.file "body \x7b\x7d"),
              ("dist", mem.Node.dir),
              ("dist/index.html", mem.Node.file "<html>old</html>"),
              ("dist/styles.css", mem.Node.file "body \x7b\x7d")],
            denied := ["themes/default/styles.css"] }
        = some
          (mem.FS.mk [("config", mem.Node.dir),
              ("config/config.yml", mem.Node.file "name: Ada\n"),
              ("themes", mem.Node.dir), ("themes/default", mem.Node.dir),
              ("themes/default/template.html", mem.Node.file "<html>new</html>"),
              ("themes/default/styles.css", mem.Node.file "body \x7b\x7d"),
              ("dist", mem.Node.dir),
              ("dist/index.html", mem.Node.file "<html>new</html>"),
              ("dist/styles.css", mem.Node.file "body \x7b\x7d")]
            ["themes/default/styles.css"],
            ["\n--- Rebuilding... ---",
              fmt.Sprintf "Build error: %v"
                [fmt.Arg.err (fmt.Errorf "failed to generate site: %w" [fmt.Arg.err wrapped])]])
      ∧ mem.os.ReadFile (mem.Join ["dist", "index.html"])
          (mem.FS.mk [("config", mem.Node.dir),
              ("config/config.yml", mem.Node.file "name: Ada\n"),
              ("themes", mem.Node.dir), ("themes/default", mem.Node.dir),
              ("themes/default/template.html", mem.Node.file "<html>new</html>"),
              ("themes/default/styles.css", mem.Node.file "body \x7b\x7d"),
              ("dist", mem.Node.dir),
              ("dist/index.html", mem.Node.file "<html>new</html>"),
              ("dist/styles.css", mem.Node.file "body \x7b\x7d")]
            ["themes/default/styles.css"]) = .ok "<html>new</html>" :=
  Generate_asset_failure_after_page_write mem.profileLib mem.os [] 8
    { ConfigVersion := "1.0", Name := "Ada", Subtitle := "", Description := "",
      Avatar := "", Theme := "default",
      Background := ⟨"color", "#1e1f26", 0, Float64.one⟩,
      Links := [], Sections := [], Socials := [] }
    { cfg :=
        { ConfigVersion := "1.0", Name := "Ada", Subtitle := "", Description := "",
          Avatar := "", Theme := "default",
          Background := ⟨"color", "#1e1f26", 0, Float64.one⟩,
          Links := [], Sections := [], Socials := [] }
      themePath := "themes/default"
      outputDir := "dist"
      theme := ⟨"default", "1.0.0", "", "", "", ⟨false, false⟩, ["styles.css"], [], ""⟩ }
    { nodes := [("config", mem.Node.dir),
        ("config/config.yml", mem.Node.file "name: Ada\n"),
        ("themes", mem.Node.dir), ("themes/default", mem.Node.dir),
        ("themes/default/template.html", mem.Node.file "<html>new</html>"),
        ("themes/default/styles.css", mem.Node.file "body \x7b\x7d"),
        ("dist", mem.Node.dir),
        ("dist/index.html", mem.Node.file "<html>old</html>"),
        ("dist/styles.css", mem.Node.file "body \x7b\x7d")],
      denied := ["themes/default/styles.css"] }
    { nodes := [("config", mem.Node.dir),
        ("config/config.yml", mem.Node.file "name: Ada\n"),
        ("themes", mem.Node.dir), ("themes/default", mem.Node.dir),
        ("themes/default/template.html", mem.Node.file "<html>new</html>"),
        ("themes/default/styles.css", mem.Node.file "body \x7b\x7d"),
        ("dist", mem.Node.dir),
        ("dist/index.html", mem.Node.file "<html>old</html>"),
        ("dist/styles.css", mem.Node.file "body \x7b\x7d")],
      denied := ["themes/default/styles.css"] }
    (mem.FS.mk [("config", mem.Node.dir),
        ("config/config.yml", mem.Node.file "name: Ada\n"),
        ("themes", mem.Node.dir), ("themes/default", mem.Node.dir),
        ("themes/default/template.html", mem.Node.file "<html>new</html>"),
        ("themes/default/styles.css", mem.Node.file "body \x7b\x7d"),
        ("dist", mem.Node.dir),
        ("dist/index.html", mem.Node.file "<html>new</html>"),
        ("dist/styles.css", mem.Node.file "body \x7b\x7d")]
      ["themes/default/styles.css"])
    (mem.FS.mk [("config", mem.Node.dir),
        ("config/config.yml", mem.Node.file "name: Ada\n"),
        ("themes", mem.Node.dir), ("themes/default", mem.Node.dir),
        ("themes/default/template.html", mem.Node.file "<html>new</html>"),
        ("themes/default/styles.css", mem.Node.file "body \x7b\x7d"),
        ("dist", mem.Node.dir),
        ("dist/index.html", mem.Node.file "<html>new</html>"),
        ("dist/styles.css", mem.Node.file "body \x7b\x7d")]
      ["themes/default/styles.css"])
    { Execute := fun _ => ("<html>new</html>", none) }
    "<html>new</html>"
    "open themes/default/styles.css: permission denied"
    (fun name => name ≠ "" ∧ '/' ∉ name.data)
    (fun d => d ≠ "" ∧ d ≠ "dist")
    (fun p st h => mem_mkdirs_keeps _ _ (mem.ancestors p) st h)
    (fun p data st hp h => mem_WriteFile_keeps _ _ p data st hp h)
    mem_ReadDir_names
    (fun d name hd hn => (mem_Join_safe d name hd hn).1)
    (fun d name hd hn => (mem_Join_safe d name hd hn).2)
    (by decide) (by decide) (by decide) (by decide)
    (fun name hn hjs => mem_Join_script name hn hjs)
    (by decide)
    (by decide) (by decide)
    (by decide) (by rfl) (by rfl) (by decide) (by decide) (Or.inl (by decide))

/-- A copy step aimed at the page file, evaluated on the in-memory system: with
the avatar `index.html`, the avatar copy lands on the page file, and a later
failure while copying the user assets leaves the bytes of the avatar in it. -/
theorem Generate_avatar_copied_onto_page :
    (generator.Generate mem.profileLib mem.os [] 8
        { cfg :=
            { ConfigVersion := "1.0", Name := "Ada", Subtitle := "", Description := "",
              Avatar := "index.html", Theme := "default",
              Background := ⟨"color", "#1e1f26", 0, Float64.one⟩,
              Links := [], Sections := [], Socials := [] }
          themePath := "themes/default"
          outputDir := "dist"
          theme := ⟨"default", "1.0.0", "", "", "", ⟨false, false⟩, [], [], ""⟩ }
        { nodes := [("assets", mem.Node.dir),
            ("assets/index.html", mem.Node.file "AVATAR-BYTES"),
            ("assets/secret.bin", mem.Node.file "secret"),
            ("themes", mem.Node.dir), ("themes/default", mem.Node.dir),
            ("themes/default/template.html", mem.Node.file "<html>new</html>"),
            ("dist", mem.Node.dir),
            ("dist/index.html", mem.Node.file "<html>old</html>")],
          denied := ["assets/secret.bin"] }).map
      (fun r => (mem.os.ReadFile "dist/index.html" r.1, r.2))
    = some (.ok "AVATAR-BYTES",
        some "failed to copy user assets: open assets/secret.bin: permission denied") := by
  decide

/-! ## The watcher loop -/

/-- Updating one session changes the number of `reload` events written by what
the update adds to that session. -/
theorem reloads_updateSession (f : linkme.PreviewSession → Option linkme.PreviewSession)
    (k : Nat)
    (hf : ∀ s s2 : linkme.PreviewSession, f s = some s2 →
      s2.events.count "data: reload\n\n" = s.events.count "data: reload\n\n" + k)
    (sessions : List linkme.PreviewSession) :
    ∀ (i : Nat) (sessions2 : List linkme.PreviewSession),
      linkme.updateSession f i sessions = some sessions2 →
      linkme.reloads sessions2 = linkme.reloads sessions + k := by
  induction sessions with
  | nil =>
    intro i sessions2 h
    simp [linkme.updateSession] at h
  | cons s rest ih =>
    intro i sessions2 h
    cases i with
    | zero =>
      simp only [linkme.updateSession, Option.map_eq_some'] at h
      obtain ⟨s2, hs2, rfl⟩ := h
      simp only [linkme.reloads, hf s s2 hs2]
      omega
    | succ i =>
      simp only [linkme.updateSession, Option.map_eq_some'] at h
      obtain ⟨rest2, hrest2, rfl⟩ := h
      simp only [linkme.reloads, ih i rest2 hrest2]
      omega

/-- A session that has just connected has no `reload` event. -/
theorem reloads_append_connected (sessions : List linkme.PreviewSession) :
    linkme.reloads (sessions
        ++ [{ events := ["data: connected\n\n"], cancelled := false, returned := false }])
      = linkme.reloads sessions := by
  induction sessions with
  | nil => decide
  | cons s rest ih =>
    show s.events.count "data: reload\n\n" + linkme.reloads (rest
        ++ [{ events := ["data: connected\n\n"], cancelled := false, returned := false }])
      = s.events.count "data: reload\n\n" + linkme.reloads rest
    rw [ih]

/-- A value of `rebuild` goes to one receiver: a step does not raise the number
of builds, plus the number of `reload` events, plus the value held by the
channel, by more than the one value a fire may send. -/
theorem watchStep_one_receiver {σ : Type} (lib : Lib) (os : OS σ)
    (iconsData : generator.IconTable) (fuel : Nat) (st st2 : linkme.WatchState σ)
    (step : linkme.WatchStep)
    (hstep : linkme.watchStep lib os iconsData fuel st step = some st2) :
    st2.builds + linkme.reloads st2.sessions + st2.rebuild.toNat
      ≤ st.builds + linkme.reloads st.sessions + st.rebuild.toNat + linkme.firesOf [step] := by
  cases step with
  | fire =>
    simp only [linkme.watchStep, Option.some.injEq] at hstep
    subst hstep
    simp only [linkme.firesOf, linkme.trySend]
    cases st.rebuild <;> simp
  | execute =>
    simp only [linkme.watchStep] at hstep
    split_ifs at hstep with hfull
    cases hre : linkme.rebuildOnce lib os iconsData fuel st.fs with
    | none =>
      rw [hre] at hstep
      exact absurd hstep (by simp)
    | some r =>
      obtain ⟨fs, lines⟩ := r
      rw [hre] at hstep
      simp only [Option.some.injEq] at hstep
      subst hstep
      have hfull2 : st.rebuild = true := by simpa using hfull
      simp [linkme.firesOf, hfull2]
      omega
  | connect =>
    simp only [linkme.watchStep, Option.some.injEq] at hstep
    subst hstep
    simp only [reloads_append_connected, linkme.firesOf]
    omega
  | reload i =>
    simp only [linkme.watchStep] at hstep
    split_ifs at hstep with hfull
    have hfull2 : st.rebuild = true := by simpa using hfull
    split at hstep
    · exact absurd hstep (by simp)
    · rename_i sessions hupd
      simp only [Option.some.injEq] at hstep
      subst hstep
      have hcount := reloads_updateSession _ 1 (by
        intro s s2 hs
        split_ifs at hs
        simp only [Option.some.injEq] at hs
        subst hs
        simp) st.sessions i sessions hupd
      simp [linkme.firesOf, hfull2, hcount]
      omega
  | cancel i =>
    simp only [linkme.watchStep] at hstep
    split at hstep
    · exact absurd hstep (by simp)
    · rename_i sessions hupd
      simp only [Option.some.injEq] at hstep
      subst hstep
      have hcount := reloads_updateSession _ 0 (by
        intro s s2 hs
        simp only [Option.some.injEq] at hs
        subst hs
        simp) st.sessions i sessions hupd
      simp only [hcount, linkme.firesOf]
      omega
  | done i =>
    simp only [linkme.watchStep] at hstep
    split at hstep
    · exact absurd hstep (by simp)
    · rename_i sessions hupd
      simp only [Option.some.injEq] at hstep
      subst hstep
      have hcount := reloads_updateSession _ 0 (by
        intro s s2 hs
        split_ifs at hs
        simp only [Option.some.injEq] at hs
        subst hs
        simp) st.sessions i sessions hupd
      simp only [hcount, linkme.firesOf]
      omega

/-- Splitting off the first step when counting fires. -/
theorem firesOf_cons (step : linkme.WatchStep) (rest : List linkme.WatchStep) :
    linkme.firesOf (step :: rest) = linkme.firesOf [step] + linkme.firesOf rest := by
  cases step <;> simp [linkme.firesOf]
  omega

/-- Over a run, the builds and the `reload` events written, together with the
value left in the channel, are at most the values that were in the channel or
were sent by the fires of the run. -/
theorem watchRun_one_receiver {σ : Type} (lib : Lib) (os : OS σ)
    (iconsData : generator.IconTable) (fuel : Nat) (steps : List linkme.WatchStep) :
    ∀ st st2 : linkme.WatchState σ,
      linkme.watchRun lib os iconsData fuel st steps = some st2 →
      st2.builds + linkme.reloads st2.sessions + st2.rebuild.toNat
        ≤ st.builds + linkme.reloads st.sessions + st.rebuild.toNat + linkme.firesOf steps := by
  induction steps with
  | nil =>
    intro st st2 h
    simp only [linkme.watchRun, Option.some.injEq] at h
    subst h
    simp [linkme.firesOf]
  | cons step rest ih =>
    intro st st2 h
    simp only [linkme.watchRun] at h
    cases hstep : linkme.watchStep lib os iconsData fuel st step with
    | none =>
      rw [hstep] at h
      exact absurd h (by simp)
    | some mid =>
      rw [hstep] at h
      have h1 := watchStep_one_receiver lib os iconsData fuel st mid step hstep
      have h2 := ih mid st2 h
      rw [firesOf_cons]
      omega

/-- C11 fails on the code: a value sent on `rebuild` is received by one
goroutine only, the rebuild executor or one preview session, never by both.
With one preview session connected and one fire of the watcher: if the rebuild
executor receives the value, the build is re-run once and the session gets no
`reload` event (its handler can take no case); if the handler of the session
receives it, the session gets its `reload` event and the build is not re-run
(the executor cannot receive). In every run from that state, the builds and
the `reload` events written number at most the fires, so no run gives each
signal both its rebuild and a `reload` event per session. What the claim says
of a disconnected session holds: once its handler has returned it takes no
further value. -/
theorem watch_signal_reaches_one_receiver :
    ((linkme.watchRun mem.profileLib mem.os [] 8 mem.onePreview
        [linkme.WatchStep.fire, linkme.WatchStep.execute]).map fun st =>
          (st.builds, st.sessions.map (fun s => s.events), st.rebuild,
            (linkme.watchStep mem.profileLib mem.os [] 8 st (linkme.WatchStep.reload 0)).isSome))
      = some (1, [["data: connected\n\n"]], false, false)
    ∧ ((linkme.watchRun mem.profileLib mem.os [] 8 mem.onePreview
        [linkme.WatchStep.fire, linkme.WatchStep.reload 0]).map fun st =>
          (st.builds, st.sessions.map (fun s => s.events), st.rebuild,
            (linkme.watchStep mem.profileLib mem.os [] 8 st linkme.WatchStep.execute).isSome))
      = some (0, [["data: connected\n\n", "data: reload\n\n"]], false, false)
    ∧ (∀ (steps : List linkme.WatchStep) (st : linkme.WatchState mem.FS),
        linkme.watchRun mem.profileLib mem.os [] 8 mem.onePreview steps = some st →
        st.builds + linkme.reloads st.sessions ≤ linkme.firesOf steps)
    ∧ ((linkme.watchRun mem.profileLib mem.os [] 8 mem.onePreview
        [linkme.WatchStep.cancel 0, linkme.WatchStep.done 0, linkme.WatchStep.fire]).map fun st =>
          (st.sessions.map (fun s => s.events), st.rebuild,
            (linkme.watchStep mem.profileLib mem.os [] 8 st (linkme.WatchStep.reload 0)).isSome))
      = some ([["data: connected\n\n"]], true, false) := by
  refine ⟨by decide, by decide, ?_, by decide⟩
  intro steps st hrun
  have h := watchRun_one_receiver mem.profileLib mem.os [] 8 steps mem.onePreview st hrun
  have h0 : mem.onePreview.builds + linkme.reloads mem.onePreview.sessions
      + mem.onePreview.rebuild.toNat = 0 := by decide
  omega
